import Mathlib

/-!
Shallow embedding of the BlackbeardBot verification subsystem
(`src/cogs/verify.py`): the `VerifiedRegistry` claim protocol and season
bookkeeping, the `WildApricotClient.get_contact` response handling, and the
`VerifyCog` season scheduler (`_season_catchup`, `season_dm_loop`,
`season_enforce_loop`, `_dm_all_members_for_season`,
`_enforce_reverify_for_season`).

Modelling conventions:
  * Python dicts that the registry stores in JSON are modelled as insertion
    ordered association lists (`dictGet`/`dictSet`/`dictPop` mirror
    `d.get`/`d[k] = v`/`d.pop`).  JSON object keys are `str(int)` in the
    source; since `str` is injective on ints and keys are only compared for
    equality, keys are modelled directly as `Nat`.
  * `datetime.date` / `datetime.datetime` values (all UTC in the source) are
    modelled as tuples of fields compared lexicographically, which is exactly
    CPython's comparison semantics for same-timezone values.
  * `datetime.fromisoformat` (standard library) is the one primitive left
    abstract: the functions that call it take a `fromiso` parameter.  The
    repository-level logic of `_parse_utc_iso` (falsiness / isinstance
    checks) is modelled explicitly.
  * Network and Discord side effects (sending DMs, editing roles) have no
    registry-visible effect; the scheduler functions instead *report* which
    external actions they performed, so that theorems can talk about them.
  * Persistence: every mutating registry method does
    `load -> mutate -> _atomic_write(full data)`.  The pure model threads the
    persisted `RegistryData` value: a method that does not call
    `_atomic_write` (e.g. a rejected claim) returns its input state
    unchanged, mirroring the fact that its in-memory mutations are discarded.
-/

/-- Python `datetime.date` (UTC). -/
structure PyDate where
  year : Nat
  month : Nat
  day : Nat
deriving DecidableEq

/-- CPython `date.__lt__`: lexicographic on (year, month, day). -/
def PyDate.ltb (a b : PyDate) : Bool :=
  decide (a.year < b.year) ||
    (decide (a.year = b.year) &&
      (decide (a.month < b.month) ||
        (decide (a.month = b.month) && decide (a.day < b.day))))

/-- CPython `date.__le__`. -/
def PyDate.leb (a b : PyDate) : Bool :=
  PyDate.ltb a b || decide (a = b)

/-- Python `datetime.datetime` (always timezone-aware UTC in this code base). -/
structure PyDateTime where
  year : Nat
  month : Nat
  day : Nat
  hour : Nat
  minute : Nat
  second : Nat
deriving DecidableEq

/-- The `.date()` projection of a UTC datetime. -/
def PyDateTime.date (t : PyDateTime) : PyDate :=
  ⟨t.year, t.month, t.day⟩

/-- CPython `datetime.__lt__` for same-timezone values: lexicographic. -/
def PyDateTime.ltb (a b : PyDateTime) : Bool :=
  PyDate.ltb a.date b.date ||
    (decide (a.date = b.date) &&
      (decide (a.hour < b.hour) ||
        (decide (a.hour = b.hour) &&
          (decide (a.minute < b.minute) ||
            (decide (a.minute = b.minute) && decide (a.second < b.second))))))

/-- CPython `datetime.__le__` for same-timezone values. -/
def PyDateTime.leb (a b : PyDateTime) : Bool :=
  PyDateTime.ltb a b || decide (a = b)

/-- A JSON scalar, used for fields that the code reads back from the registry
file without assuming a type (`rec.get("last_verified_at_utc")` may hold any
JSON value in a hand-edited or corrupt file). -/
inductive JVal where
  | s (v : String)
  | n (v : Int)
  | b (v : Bool)
  | null
deriving DecidableEq

/-- Source constant `SEASON_START_MONTH = 4`. -/
def SEASON_START_MONTH : Nat := 4

/-- Source constant `SEASON_START_DAY = 1`. -/
def SEASON_START_DAY : Nat := 1

/-- Source constant `REVERIFY_DEADLINE_MONTH = 4`. -/
def REVERIFY_DEADLINE_MONTH : Nat := 4

/-- Source constant `REVERIFY_DEADLINE_DAY = 14`. -/
def REVERIFY_DEADLINE_DAY : Nat := 14

/-- Source `_season_start_utc(year)`: April 1, 00:00:00 UTC of `year`. -/
def season_start_utc (year : Nat) : PyDateTime :=
  ⟨year, SEASON_START_MONTH, SEASON_START_DAY, 0, 0, 0⟩

/-- Source `_reverify_deadline_utc(year)`: April 14, 00:00:00 UTC of `year`. -/
def reverify_deadline_utc (year : Nat) : PyDateTime :=
  ⟨year, REVERIFY_DEADLINE_MONTH, REVERIFY_DEADLINE_DAY, 0, 0, 0⟩

/-- Source `_parse_utc_iso(s)`.  Returns `None` when the stored value is
absent, not a string, or the empty string (Python falsiness / `isinstance`
checks), and otherwise delegates to the standard library parse, abstracted
here as `fromiso` (which returns `none` exactly when `fromisoformat` raises;
the `"Z"` suffix rewriting and timezone normalisation of the source are folded
into `fromiso`). -/
def parse_utc_iso (fromiso : String → Option PyDateTime) : Option JVal → Option PyDateTime
  | some (JVal.s v) => if v = "" then none else fromiso v
  | _ => none

/-- Lookup in a Python-dict-as-association-list (`d.get(k)`). -/
def dictGet {α : Type} : List (Nat × α) → Nat → Option α
  | [], _ => none
  | (k, v) :: t, k' => if k = k' then some v else dictGet t k'

/-- Update/insert in a Python dict (`d[k] = v`): replaces the value in place
if the key exists, otherwise appends (insertion order semantics). -/
def dictSet {α : Type} : List (Nat × α) → Nat → α → List (Nat × α)
  | [], k, v => [(k, v)]
  | (k', v') :: t, k, v =>
      if k' = k then (k', v) :: t else (k', v') :: dictSet t k v

/-- Removal from a Python dict (`d.pop(k, None)`). -/
def dictPop {α : Type} : List (Nat × α) → Nat → List (Nat × α)
  | [], _ => []
  | (k', v') :: t, k => if k' = k then t else (k', v') :: dictPop t k

/-- Keys of the association list are pairwise distinct (always true of a
Python dict). -/
def keysNodup {α : Type} (m : List (Nat × α)) : Prop :=
  (m.map Prod.fst).Nodup

instance {α : Type} (m : List (Nat × α)) : Decidable (keysNodup m) :=
  List.nodupDecidable (m.map Prod.fst)

/-- One record of `wa_id_map` as written by `VerifiedRegistry.claim`
(lines 316-327 / 336-344 / 366-379 of `verify.py`). -/
structure LinkRecord where
  wa_contact_id : Nat
  discord_user_id : Nat
  discord_tag : String
  discord_name : Option String
  discord_global_name : Option String
  wa_full_name : String
  membership_level : Option String
  membership_status : Option String
  first_verified_at_utc : Option String
  last_verified_at_utc : Option JVal
  reassigned_from_discord_user_id : Option Nat
  reassigned_at_utc : Option String
  demoted_for_season_year : Option Nat
  demoted_at_utc : Option String
deriving DecidableEq

/-- Per-guild per-season record under `season_state` (may lack either key). -/
structure SeasonRec where
  dm_sent_at_utc : Option String
  enforced_at_utc : Option String
deriving DecidableEq

/-- The fresh `{}` season record created by `setdefault(str(year), {})`. -/
def SeasonRec.empty : SeasonRec := ⟨none, none⟩

/-- Per-guild registry content: `wa_id_map` (wa id -> record),
`discord_user_map` (discord user id -> wa id), `season_state`
(season year -> season record). -/
structure GuildData where
  wa_id_map : List (Nat × LinkRecord)
  discord_user_map : List (Nat × Nat)
  season_state : List (Nat × SeasonRec)
deriving DecidableEq

/-- The fresh `{}` guild entry created by `setdefault(gid, {})`. -/
def GuildData.empty : GuildData := ⟨[], [], []⟩

/-- Top-level persisted registry JSON: `{"guilds": {...}}`. -/
structure RegistryData where
  guilds : List (Nat × GuildData)
deriving DecidableEq

/-- The fresh registry `{"guilds": {}}`. -/
def RegistryData.empty : RegistryData := ⟨[]⟩

/-- Possible states of the registry file on disk, as distinguished by
`VerifiedRegistry._load`: absent, present but blank/whitespace, present with
syntactically invalid JSON, valid JSON whose top level is not an object, or a
valid top-level object (with its `"guilds"` key defaulted to `{}` by
`setdefault`, which the `RegistryData` structure makes intrinsic). -/
inductive StoredFile where
  | missing
  | blank
  | invalidJson
  | nonObjectTop
  | objectTop (d : RegistryData)
deriving DecidableEq

/-- Source `VerifiedRegistry._load`: every failure mode falls back to the
fresh `{"guilds": {}}` state. -/
def VerifiedRegistry.load : StoredFile → RegistryData
  | StoredFile.objectTop d => d
  | _ => RegistryData.empty

/-- Python truthiness of an optional string (`bool(rec.get(key))`): true
exactly for a present, non-empty string. -/
def pyTruthy : Option String → Bool
  | some s => !(s = "")
  | none => false

/-- Arguments of `VerifiedRegistry.claim` that identify the caller and the
payload being recorded (`guild.id`, `wa_contact_id`, `discord_user` fields,
looked-up WildApricot fields). -/
structure ClaimArgs where
  gid : Nat
  wa_contact_id : Nat
  discord_user_id : Nat
  discord_tag : String
  discord_name : Option String
  discord_global_name : Option String
  wa_full_name : String
  membership_level : Option String
  membership_status : Option String
deriving DecidableEq

/-- Outcome of a `claim` call.  The source returns `(ok, message)`; the three
`ok = True` branches are distinguished here by the log line they print
(`new` / `re-verify` / `reassigned`), and `alreadyLinked` is the single
`ok = False` rejection path ("That Member ID is already linked to another
Discord account that is still in this server."). -/
inductive ClaimResult where
  | linkedNew
  | reverified
  | reassigned (prevOwner : Nat)
  | alreadyLinked
deriving DecidableEq

/-- Outcome of `guild.fetch_member(user_id)` as distinguished by the
exception handlers in `VerifiedRegistry._is_member_present`. -/
inductive FetchResult where
  | found
  | notFound
  | forbidden
  | httpError
deriving DecidableEq

/-- Source `VerifiedRegistry._is_member_present`: cache hit means present;
otherwise fetch, treating `NotFound` as absent and the indeterminate failures
(`Forbidden`, `HTTPException`) conservatively as present. -/
def VerifiedRegistry.is_member_present (inCache : Bool) (fetch : FetchResult) : Bool :=
  if inCache then true
  else
    match fetch with
    | FetchResult.found => true
    | FetchResult.notFound => false
    | FetchResult.forbidden => true
    | FetchResult.httpError => true

/-- The stale-ownership cleanup at the top of `claim` (lines 305-310):
if this Discord user previously claimed a different WA id and that old record
still points at them, drop the old record. -/
def VerifiedRegistry.detach_prev (wa_map : List (Nat × LinkRecord))
    (user_map : List (Nat × Nat)) (duid waKey : Nat) : List (Nat × LinkRecord) :=
  match dictGet user_map duid with
  | some prev =>
      if prev ≠ waKey then
        match dictGet wa_map prev with
        | some oldRec =>
            if oldRec.discord_user_id = duid then dictPop wa_map prev else wa_map
        | none => wa_map
      else wa_map
  | none => wa_map

/-- The record lookup `existing = wa_map.get(wa_key)` as performed by `claim`
after the stale-ownership cleanup (line 312). -/
def VerifiedRegistry.claim_existing (d : RegistryData) (a : ClaimArgs) : Option LinkRecord :=
  let g := (dictGet d.guilds a.gid).getD GuildData.empty
  dictGet
    (VerifiedRegistry.detach_prev g.wa_id_map g.discord_user_map
      a.discord_user_id a.wa_contact_id)
    a.wa_contact_id

/-- Source `VerifiedRegistry.claim` (lines 278-386).  `present` is the
`_is_member_present` oracle for this guild, `now` the ISO timestamp string
computed at entry.  Returns the outcome together with the *persisted* state
after the call: the rejection path performs no `_atomic_write`, so its
in-memory mutations are discarded and the persisted state is the input. -/
def VerifiedRegistry.claim (d : RegistryData) (a : ClaimArgs)
    (present : Nat → Bool) (now : String) : ClaimResult × RegistryData :=
  let g := (dictGet d.guilds a.gid).getD GuildData.empty
  let waMap := VerifiedRegistry.detach_prev g.wa_id_map g.discord_user_map
    a.discord_user_id a.wa_contact_id
  let userMap := g.discord_user_map
  match dictGet waMap a.wa_contact_id with
  | none =>
      -- no existing mapping: claim it (lines 315-331)
      let r : LinkRecord :=
        { wa_contact_id := a.wa_contact_id
          discord_user_id := a.discord_user_id
          discord_tag := a.discord_tag
          discord_name := a.discord_name
          discord_global_name := a.discord_global_name
          wa_full_name := a.wa_full_name
          membership_level := a.membership_level
          membership_status := a.membership_status
          first_verified_at_utc := some now
          last_verified_at_utc := some (JVal.s now)
          reassigned_from_discord_user_id := none
          reassigned_at_utc := none
          demoted_for_season_year := none
          demoted_at_utc := none }
      let g' : GuildData :=
        { g with
          wa_id_map := dictSet waMap a.wa_contact_id r
          discord_user_map := dictSet userMap a.discord_user_id a.wa_contact_id }
      (ClaimResult.linkedNew, ⟨dictSet d.guilds a.gid g'⟩)
  | some existing =>
      if existing.discord_user_id = a.discord_user_id then
        -- same account re-verifies: update in place (lines 333-349)
        let r : LinkRecord :=
          { existing with
            discord_tag := a.discord_tag
            discord_name := a.discord_name
            discord_global_name := a.discord_global_name
            wa_full_name := a.wa_full_name
            membership_level := a.membership_level
            membership_status := a.membership_status
            last_verified_at_utc := some (JVal.s now) }
        let g' : GuildData :=
          { g with
            wa_id_map := dictSet waMap a.wa_contact_id r
            discord_user_map := dictSet userMap a.discord_user_id a.wa_contact_id }
        (ClaimResult.reverified, ⟨dictSet d.guilds a.gid g'⟩)
      else if present existing.discord_user_id then
        -- prior owner still in guild: reject, no write (lines 351-363)
        (ClaimResult.alreadyLinked, d)
      else
        -- prior owner gone: takeover (lines 365-386)
        let r : LinkRecord :=
          { wa_contact_id := a.wa_contact_id
            discord_user_id := a.discord_user_id
            discord_tag := a.discord_tag
            discord_name := a.discord_name
            discord_global_name := a.discord_global_name
            wa_full_name := a.wa_full_name
            membership_level := a.membership_level
            membership_status := a.membership_status
            first_verified_at_utc := some (existing.first_verified_at_utc.getD now)
            last_verified_at_utc := some (JVal.s now)
            reassigned_from_discord_user_id := some existing.discord_user_id
            reassigned_at_utc := some now
            demoted_for_season_year := none
            demoted_at_utc := none }
        let g' : GuildData :=
          { g with
            wa_id_map := dictSet waMap a.wa_contact_id r
            discord_user_map := dictSet userMap a.discord_user_id a.wa_contact_id }
        (ClaimResult.reassigned existing.discord_user_id, ⟨dictSet d.guilds a.gid g'⟩)

/-- Source `VerifiedRegistry.list_wa_records`: snapshot of the guild's
`wa_id_map` (the per-record `.copy()` is the identity on immutable values). -/
def VerifiedRegistry.list_wa_records (d : RegistryData) (guild_id : Nat) :
    List (Nat × LinkRecord) :=
  ((dictGet d.guilds guild_id).getD GuildData.empty).wa_id_map

/-- Source `VerifiedRegistry.update_wa_record`: patch the record for
`wa_contact_id` in place if it exists (and only then write); `patch` models
`rec.update(updates)` for the concrete `updates` dict of the call site. -/
def VerifiedRegistry.update_wa_record (d : RegistryData) (guild_id wa_contact_id : Nat)
    (patch : LinkRecord → LinkRecord) : RegistryData :=
  let g := (dictGet d.guilds guild_id).getD GuildData.empty
  match dictGet g.wa_id_map wa_contact_id with
  | some r =>
      let g' : GuildData := { g with wa_id_map := dictSet g.wa_id_map wa_contact_id (patch r) }
      ⟨dictSet d.guilds guild_id g'⟩
  | none => d

/-- Source `VerifiedRegistry.was_dm_sent`: Python truthiness of
`season_state[str(year)]["dm_sent_at_utc"]` with every level defaulted. -/
def VerifiedRegistry.was_dm_sent (d : RegistryData) (guild_id season_year : Nat) : Bool :=
  let g := (dictGet d.guilds guild_id).getD GuildData.empty
  let r := (dictGet g.season_state season_year).getD SeasonRec.empty
  pyTruthy r.dm_sent_at_utc

/-- Source `VerifiedRegistry.mark_dm_sent`: unconditionally stamps
`dm_sent_at_utc` with the current time and persists. -/
def VerifiedRegistry.mark_dm_sent (d : RegistryData) (guild_id season_year : Nat)
    (now : String) : RegistryData :=
  let g := (dictGet d.guilds guild_id).getD GuildData.empty
  let r := (dictGet g.season_state season_year).getD SeasonRec.empty
  let g' : GuildData :=
    { g with season_state := dictSet g.season_state season_year { r with dm_sent_at_utc := some now } }
  ⟨dictSet d.guilds guild_id g'⟩

/-- Source `VerifiedRegistry.was_enforced`. -/
def VerifiedRegistry.was_enforced (d : RegistryData) (guild_id season_year : Nat) : Bool :=
  let g := (dictGet d.guilds guild_id).getD GuildData.empty
  let r := (dictGet g.season_state season_year).getD SeasonRec.empty
  pyTruthy r.enforced_at_utc

/-- Source `VerifiedRegistry.mark_enforced`: unconditionally stamps
`enforced_at_utc` with the current time and persists. -/
def VerifiedRegistry.mark_enforced (d : RegistryData) (guild_id season_year : Nat)
    (now : String) : RegistryData :=
  let g := (dictGet d.guilds guild_id).getD GuildData.empty
  let r := (dictGet g.season_state season_year).getD SeasonRec.empty
  let g' : GuildData :=
    { g with season_state := dictSet g.season_state season_year { r with enforced_at_utc := some now } }
  ⟨dictSet d.guilds guild_id g'⟩

/-- Observer: the raw stored `dm_sent_at_utc` value for a guild and year. -/
def dm_sent_at (d : RegistryData) (guild_id season_year : Nat) : Option String :=
  ((dictGet ((dictGet d.guilds guild_id).getD GuildData.empty).season_state
      season_year).getD SeasonRec.empty).dm_sent_at_utc

/-- Observer: the raw stored `enforced_at_utc` value for a guild and year. -/
def enforced_at (d : RegistryData) (guild_id season_year : Nat) : Option String :=
  ((dictGet ((dictGet d.guilds guild_id).getD GuildData.empty).season_state
      season_year).getD SeasonRec.empty).enforced_at_utc

/-- Observer: the stored `wa_id_map` record for a guild and WA contact id. -/
def get_wa_record (d : RegistryData) (guild_id waKey : Nat) : Option LinkRecord :=
  dictGet ((dictGet d.guilds guild_id).getD GuildData.empty).wa_id_map waKey

/-- Outcome of the HTTP GET in `WildApricotClient.get_contact`, as far as the
code distinguishes it: a transport-level failure (timeout, connection error —
an `aiohttp` exception) or a response with a status and a body. -/
inductive WAResponse where
  | transportError
  | httpResp (status : Nat) (body : String)
deriving DecidableEq

/-- Result of a successful `get_contact`: the source signals "no such
contact" by returning the empty dict `{}` (which the caller tests with
`if not contact`), and otherwise returns the parsed JSON body. -/
inductive ContactResult where
  | notFound
  | found (body : String)
deriving DecidableEq

/-- Source `WildApricotClient.get_contact` (lines 509-523), composed with the
`_ensure_token` call it begins with: a token-acquisition failure propagates as
an error; a 404 response returns the distinct "not found" value; any other
non-200 status or a transport failure raises (`ServiceError` to the caller);
a 200 response returns the body. -/
def WildApricotClient.get_contact (tokenOk : Bool) (resp : WAResponse) :
    Except String ContactResult :=
  if !tokenOk then Except.error "WA token request failed"
  else
    match resp with
    | WAResponse.transportError => Except.error "transport failure"
    | WAResponse.httpResp status body =>
        if status = 404 then Except.ok ContactResult.notFound
        else if status ≠ 200 then Except.error "WA contact lookup failed"
        else Except.ok (ContactResult.found body)

/-- How the enforcement sweep resolves a record's Discord member (lines
820-830): cache hit, successful fetch, `NotFound`, or an indeterminate fetch
failure (`Forbidden` / `HTTPException`), each `continue`-ing when the member
cannot be confirmed present. -/
inductive MemberLookup where
  | cached
  | fetched
  | notFound
  | forbidden
  | httpError
deriving DecidableEq

/-- Whether the sweep's member resolution confirms the member present (only
then may the record be demoted). -/
def sweep_member_found : MemberLookup → Bool
  | MemberLookup.cached => true
  | MemberLookup.fetched => true
  | MemberLookup.notFound => false
  | MemberLookup.forbidden => false
  | MemberLookup.httpError => false

/-- Source `VerifyCog._dm_all_members_for_season`: guarded by `was_dm_sent`;
the DM broadcast itself touches no registry state; finally `mark_dm_sent`.
The returned `Bool` reports whether the announcement action ran. -/
def VerifyCog.dm_all_members_for_season (d : RegistryData) (guild_id season_year : Nat)
    (now : String) : Bool × RegistryData :=
  if VerifiedRegistry.was_dm_sent d guild_id season_year then (false, d)
  else (true, VerifiedRegistry.mark_dm_sent d guild_id season_year now)

/-- The `updates` dict passed to `update_wa_record` by the enforcement sweep
(lines 850-853). -/
def demotion_patch (season_year : Nat) (now : String) (r : LinkRecord) : LinkRecord :=
  { r with
    demoted_for_season_year := some season_year
    demoted_at_utc := some now }

/-- The per-record body of the enforcement loop (lines 811-856): skip records
whose member is not confirmed present; skip records whose
`last_verified_at_utc` parses to an instant at or after the season start;
otherwise demote (an external Discord action, reported in the accumulator)
and stamp the demotion metadata through `update_wa_record`. -/
def VerifyCog.enforce_step (guild_id season_year : Nat) (seasonStart : PyDateTime)
    (memberLookup : Nat → MemberLookup) (fromiso : String → Option PyDateTime)
    (now : String) (acc : List (Nat × Nat) × RegistryData) (p : Nat × LinkRecord) :
    List (Nat × Nat) × RegistryData :=
  if sweep_member_found (memberLookup p.2.discord_user_id) then
    let lastV := parse_utc_iso fromiso p.2.last_verified_at_utc
    let compliant := match lastV with
      | some t => PyDateTime.leb seasonStart t
      | none => false
    if compliant then acc
    else
      (acc.1 ++ [(p.1, p.2.discord_user_id)],
        VerifiedRegistry.update_wa_record acc.2 guild_id p.2.wa_contact_id
          (demotion_patch season_year now))
  else acc

/-- Source `VerifyCog._enforce_reverify_for_season` (lines 795-862): guarded
by `was_enforced`; iterates the snapshot of `wa_id_map`, demoting
non-compliant present members and stamping their records; finally
`mark_enforced`.  Returns whether the sweep ran, the list of
`(wa id, discord user id)` pairs that were demoted, and the final persisted
state. -/
def VerifyCog.enforce_reverify_for_season (d : RegistryData) (guild_id season_year : Nat)
    (memberLookup : Nat → MemberLookup) (fromiso : String → Option PyDateTime)
    (now : String) : Bool × List (Nat × Nat) × RegistryData :=
  if VerifiedRegistry.was_enforced d guild_id season_year then (false, [], d)
  else
    let seasonStart := season_start_utc season_year
    let recs := VerifiedRegistry.list_wa_records d guild_id
    let out := recs.foldl
      (VerifyCog.enforce_step guild_id season_year seasonStart memberLookup fromiso now)
      ([], d)
    (true, out.1, VerifiedRegistry.mark_enforced out.2 guild_id season_year now)

/-- An external season action performed by the scheduler, for a guild and a
season year: the DM announcement broadcast, or the enforcement sweep with the
demotions it performed. -/
inductive SeasonAction where
  | dm (guild_id season_year : Nat)
  | enforceSweep (guild_id season_year : Nat) (demoted : List (Nat × Nat))
deriving DecidableEq

/-- The per-guild body of `VerifyCog._season_catchup` (lines 876-885): run
the DM catch-up when today is inside the announcement window of the season
year and the flag is unset; run the enforcement catch-up when today is
on/after the deadline and the flag is unset. -/
def VerifyCog.catchup_step (year : Nat) (seasonStart deadline : PyDateTime)
    (nowDate : PyDate) (memberLookup : Nat → Nat → MemberLookup)
    (fromiso : String → Option PyDateTime) (nowStr : String)
    (acc : List SeasonAction × RegistryData) (g : Nat) :
    List SeasonAction × RegistryData :=
  let step1 : List SeasonAction × RegistryData :=
    if PyDate.leb seasonStart.date nowDate && PyDate.ltb nowDate deadline.date then
      if VerifiedRegistry.was_dm_sent acc.2 g year then acc
      else
        let out := VerifyCog.dm_all_members_for_season acc.2 g year nowStr
        (if out.1 then acc.1 ++ [SeasonAction.dm g year] else acc.1, out.2)
    else acc
  if PyDate.leb deadline.date nowDate then
    if VerifiedRegistry.was_enforced step1.2 g year then step1
    else
      let out := VerifyCog.enforce_reverify_for_season step1.2 g year
        (memberLookup g) fromiso nowStr
      (if out.1 then step1.1 ++ [SeasonAction.enforceSweep g year out.2.1] else step1.1,
        out.2.2)
  else step1

/-- Source `VerifyCog._season_catchup` (lines 864-885): computes
`year = now.year` (the current calendar year only) and runs the per-guild
date-based checks against that single season year. -/
def VerifyCog.season_catchup (d : RegistryData) (guilds : List Nat) (now : PyDateTime)
    (memberLookup : Nat → Nat → MemberLookup) (fromiso : String → Option PyDateTime)
    (nowStr : String) : List SeasonAction × RegistryData :=
  let year := now.year
  guilds.foldl
    (VerifyCog.catchup_step year (season_start_utc year) (reverify_deadline_utc year)
      now.date memberLookup fromiso nowStr)
    ([], d)

/-- Source `VerifyCog.season_dm_loop` body: the daily 16:00 UTC tick returns
immediately unless today is exactly April 1; on April 1 it runs
`_dm_all_members_for_season` for every guild with `season_year = today.year`.
Returns the guilds in which the announcement ran. -/
def VerifyCog.season_dm_loop (d : RegistryData) (guilds : List Nat) (today : PyDate)
    (nowStr : String) : List Nat × RegistryData :=
  if today.month = SEASON_START_MONTH ∧ today.day = SEASON_START_DAY then
    guilds.foldl
      (fun acc g =>
        let out := VerifyCog.dm_all_members_for_season acc.2 g today.year nowStr
        (if out.1 then acc.1 ++ [g] else acc.1, out.2))
      ([], d)
  else ([], d)

/-- Source `VerifyCog.season_enforce_loop` body: the daily 07:05 UTC tick
returns immediately unless today is exactly April 14; on April 14 it runs
`_enforce_reverify_for_season` for every guild with
`season_year = today.year`.  Returns the guilds in which the sweep ran. -/
def VerifyCog.season_enforce_loop (d : RegistryData) (guilds : List Nat) (today : PyDate)
    (memberLookup : Nat → Nat → MemberLookup) (fromiso : String → Option PyDateTime)
    (nowStr : String) : List Nat × RegistryData :=
  if today.month = REVERIFY_DEADLINE_MONTH ∧ today.day = REVERIFY_DEADLINE_DAY then
    guilds.foldl
      (fun acc g =>
        let out := VerifyCog.enforce_reverify_for_season acc.2 g today.year
          (memberLookup g) fromiso nowStr
        (if out.1 then acc.1 ++ [g] else acc.1, out.2.2))
      ([], d)
  else ([], d)

/-- File-level wrapper: `claim` as run against the on-disk file (the method
begins with `data = self._load()`). -/
def VerifiedRegistry.claim_from_file (f : StoredFile) (a : ClaimArgs)
    (present : Nat → Bool) (now : String) : ClaimResult × RegistryData :=
  VerifiedRegistry.claim (VerifiedRegistry.load f) a present now

/-- File-level wrapper for `list_wa_records`. -/
def VerifiedRegistry.list_wa_records_from_file (f : StoredFile) (guild_id : Nat) :
    List (Nat × LinkRecord) :=
  VerifiedRegistry.list_wa_records (VerifiedRegistry.load f) guild_id

/-- File-level wrapper for `was_dm_sent`. -/
def VerifiedRegistry.was_dm_sent_from_file (f : StoredFile) (guild_id season_year : Nat) : Bool :=
  VerifiedRegistry.was_dm_sent (VerifiedRegistry.load f) guild_id season_year

/-- File-level wrapper for `mark_dm_sent`. -/
def VerifiedRegistry.mark_dm_sent_from_file (f : StoredFile) (guild_id season_year : Nat)
    (now : String) : RegistryData :=
  VerifiedRegistry.mark_dm_sent (VerifiedRegistry.load f) guild_id season_year now

/-- File-level wrapper for `was_enforced`. -/
def VerifiedRegistry.was_enforced_from_file (f : StoredFile) (guild_id season_year : Nat) : Bool :=
  VerifiedRegistry.was_enforced (VerifiedRegistry.load f) guild_id season_year

/-- File-level wrapper for `mark_enforced`. -/
def VerifiedRegistry.mark_enforced_from_file (f : StoredFile) (guild_id season_year : Nat)
    (now : String) : RegistryData :=
  VerifiedRegistry.mark_enforced (VerifiedRegistry.load f) guild_id season_year now

/-- File-level wrapper for `update_wa_record`. -/
def VerifiedRegistry.update_wa_record_from_file (f : StoredFile) (guild_id wa_contact_id : Nat)
    (patch : LinkRecord → LinkRecord) : RegistryData :=
  VerifiedRegistry.update_wa_record (VerifiedRegistry.load f) guild_id wa_contact_id patch

/-- The secondary-index invariant of the registry: every record of
`wa_id_map` is pointed back at by the `discord_user_map` entry of its current
owner.  This is the structural fact that `claim` maintains and that forces
each Discord user to own at most one current record. -/
def GuildData.indexed (g : GuildData) : Prop :=
  ∀ k r, dictGet g.wa_id_map k = some r →
    dictGet g.discord_user_map r.discord_user_id = some k

/-- At most one current `LinkRecord` per Discord user in this guild. -/
def GuildData.ownerUnique (g : GuildData) : Prop :=
  ∀ k1 k2 r1 r2, dictGet g.wa_id_map k1 = some r1 →
    dictGet g.wa_id_map k2 = some r2 →
    r1.discord_user_id = r2.discord_user_id → k1 = k2

/-- Every stored record's `wa_contact_id` field agrees with the `wa_id_map`
key it is filed under (true of every record `claim` writes). -/
def GuildData.wellKeyed (g : GuildData) : Prop :=
  ∀ p ∈ g.wa_id_map, p.1 = p.2.wa_contact_id

/-- Structural invariant of one guild's registry content. -/
def GuildData.inv (g : GuildData) : Prop :=
  keysNodup g.wa_id_map ∧ keysNodup g.discord_user_map ∧ GuildData.indexed g

/-- Structural invariant of the whole persisted registry. -/
def RegistryData.inv (d : RegistryData) : Prop :=
  ∀ gid g, dictGet d.guilds gid = some g → GuildData.inv g

/-- The net demotion condition of one sweep iteration: member confirmed
present and `last_verified_at_utc` not parsing to an instant at or after the
season start. -/
def demotes (seasonStart : PyDateTime) (memberLookup : Nat → MemberLookup)
    (fromiso : String → Option PyDateTime) (r : LinkRecord) : Bool :=
  sweep_member_found (memberLookup r.discord_user_id) &&
    !(match parse_utc_iso fromiso r.last_verified_at_utc with
      | some t => PyDateTime.leb seasonStart t
      | none => false)

/-- Fixture for the enforcement-sweep witnesses: a compliant record (WA id
500, owner 42, re-verified after the 2025 season start) next to a record with
a non-string `last_verified_at_utc` (WA id 600, owner 43). -/
def fixtureRecord500 : LinkRecord :=
  ⟨500, 42, "alice#1", none, none, "Alice A", some "Social", some "Active",
    some "2024-04-02T10:00:00Z", some (JVal.s "2025-04-05T12:00:00Z"),
    none, none, none, none⟩

/-- Fixture record whose `last_verified_at_utc` holds a JSON number, which
`_parse_utc_iso` rejects via its `isinstance(s, str)` check. -/
def fixtureRecord600 : LinkRecord :=
  ⟨600, 43, "bob#1", none, none, "Bob B", some "Social", some "Active",
    some "2024-04-03T10:00:00Z", some (JVal.n 5), none, none, none, none⟩

/-- Fixture registry state holding both records for guild 1. -/
def fixtureState : RegistryData :=
  ⟨[(1, ⟨[(500, fixtureRecord500), (600, fixtureRecord600)],
      [(42, 500), (43, 600)], []⟩)]⟩

/-- Fixture stand-in for `datetime.fromisoformat`, defined on the one
timestamp string the fixtures store. -/
def fixtureFromiso : String → Option PyDateTime :=
  fun s => if s = "2025-04-05T12:00:00Z" then some ⟨2025, 4, 5, 12, 0, 0⟩ else none


theorem dictGet_dictSet {α : Type} (m : List (Nat × α)) (k k' : Nat) (v : α) :
    dictGet (dictSet m k v) k' = if k = k' then some v else dictGet m k' := by
  induction m with
  | nil => simp [dictGet, dictSet]
  | cons hd tl ih =>
    obtain ⟨a, b⟩ := hd
    by_cases hak : a = k
    · subst hak
      by_cases hk' : a = k'
      · subst hk'; simp [dictGet, dictSet]
      · simp [dictGet, dictSet, hk']
    · by_cases hk' : a = k'
      · subst hk'
        have hka : ¬ k = a := fun h => hak h.symm
        simp [dictGet, dictSet, hak, hka]
      · simp [dictGet, dictSet, hak, hk', ih]

theorem dictGet_eq_none_of_not_mem {α : Type} {m : List (Nat × α)} {x : Nat}
    (h : x ∉ m.map Prod.fst) : dictGet m x = none := by
  induction m with
  | nil => simp [dictGet]
  | cons hd tl ih =>
    obtain ⟨a, b⟩ := hd
    simp only [List.map_cons, List.mem_cons] at h
    push_neg at h
    have hax : ¬ a = x := fun hax => h.1 hax.symm
    simp [dictGet, hax, ih h.2]

theorem dictGet_some_mem {α : Type} {m : List (Nat × α)} {k : Nat} {v : α}
    (h : dictGet m k = some v) : (k, v) ∈ m := by
  induction m with
  | nil => simp [dictGet] at h
  | cons hd tl ih =>
    obtain ⟨a, b⟩ := hd
    by_cases hak : a = k
    · subst hak
      simp [dictGet] at h
      subst h
      exact List.mem_cons_self _ _
    · simp [dictGet, hak] at h
      exact List.mem_cons_of_mem _ (ih h)

theorem mem_dictGet {α : Type} {m : List (Nat × α)} {k : Nat} {v : α}
    (hnd : keysNodup m) (h : (k, v) ∈ m) : dictGet m k = some v := by
  induction m with
  | nil => simp at h
  | cons hd tl ih =>
    obtain ⟨a, b⟩ := hd
    rcases List.mem_cons.mp h with heq | htl
    · injection heq with h1 h2
      subst h1
      subst h2
      simp [dictGet]
    · have hk : k ∈ tl.map Prod.fst := List.mem_map_of_mem Prod.fst htl
      have hnd' : keysNodup tl := (List.nodup_cons.mp hnd).2
      have ha : a ∉ tl.map Prod.fst := (List.nodup_cons.mp hnd).1
      have hak : ¬ a = k := fun hak => ha (hak ▸ hk)
      simp [dictGet, hak, ih hnd' htl]

theorem dictSet_cons_self {α : Type} (a : Nat) (b v : α) (tl : List (Nat × α)) :
    dictSet ((a, b) :: tl) a v = (a, v) :: tl := by
  simp [dictSet]

theorem dictSet_cons_ne {α : Type} {a k : Nat} (hak : a ≠ k) (b : α) (v : α)
    (tl : List (Nat × α)) :
    dictSet ((a, b) :: tl) k v = (a, b) :: dictSet tl k v := by
  simp [dictSet, hak]

theorem mem_keys_dictSet {α : Type} {m : List (Nat × α)} {k x : Nat} {v : α}
    (h : x ∈ (dictSet m k v).map Prod.fst) : x ∈ m.map Prod.fst ∨ x = k := by
  induction m with
  | nil => simpa [dictSet] using h
  | cons hd tl ih =>
    obtain ⟨a, b⟩ := hd
    by_cases hak : a = k
    · subst hak
      rw [dictSet_cons_self] at h
      simp only [List.map_cons, List.mem_cons] at h
      rcases h with h1 | h1
      · exact Or.inr h1
      · exact Or.inl (by simp only [List.map_cons, List.mem_cons]; exact Or.inr h1)
    · rw [dictSet_cons_ne hak] at h
      simp only [List.map_cons, List.mem_cons] at h
      rcases h with h1 | h1
      · exact Or.inl (by simp only [List.map_cons, List.mem_cons]; exact Or.inl h1)
      · rcases ih h1 with h2 | h2
        · exact Or.inl (by simp only [List.map_cons, List.mem_cons]; exact Or.inr h2)
        · exact Or.inr h2

theorem keysNodup_dictSet {α : Type} {m : List (Nat × α)} {k : Nat} {v : α}
    (hnd : keysNodup m) : keysNodup (dictSet m k v) := by
  induction m with
  | nil => simp [dictSet, keysNodup]
  | cons hd tl ih =>
    obtain ⟨a, b⟩ := hd
    have ha : a ∉ tl.map Prod.fst := (List.nodup_cons.mp hnd).1
    have hnd' : keysNodup tl := (List.nodup_cons.mp hnd).2
    by_cases hak : a = k
    · subst hak
      have h2 : keysNodup ((a, v) :: tl) := by
        unfold keysNodup
        rw [List.map_cons]
        exact List.nodup_cons.mpr ⟨ha, hnd'⟩
      rw [dictSet_cons_self]
      exact h2
    · have hnotin : a ∉ (dictSet tl k v).map Prod.fst := by
        intro hmem
        rcases mem_keys_dictSet hmem with h' | h'
        · exact ha h'
        · exact hak h'
      have h2 : keysNodup ((a, b) :: dictSet tl k v) := by
        unfold keysNodup
        rw [List.map_cons]
        exact List.nodup_cons.mpr ⟨hnotin, ih hnd'⟩
      rw [dictSet_cons_ne hak]
      exact h2

theorem dictPop_sublist {α : Type} (m : List (Nat × α)) (k : Nat) :
    List.Sublist (dictPop m k) m := by
  induction m with
  | nil => simp [dictPop]
  | cons hd tl ih =>
    obtain ⟨a, b⟩ := hd
    by_cases hak : a = k
    · simp only [dictPop, if_pos hak]
      exact List.sublist_cons_self _ _
    · simp only [dictPop, if_neg hak]
      exact List.Sublist.cons₂ (a, b) ih

theorem keysNodup_dictPop {α : Type} {m : List (Nat × α)} {k : Nat}
    (hnd : keysNodup m) : keysNodup (dictPop m k) :=
  List.Nodup.sublist (List.Sublist.map Prod.fst (dictPop_sublist m k)) hnd

theorem dictGet_dictPop_ne {α : Type} {m : List (Nat × α)} {k k' : Nat}
    (h : k ≠ k') : dictGet (dictPop m k) k' = dictGet m k' := by
  induction m with
  | nil => simp [dictPop]
  | cons hd tl ih =>
    obtain ⟨a, b⟩ := hd
    by_cases hak : a = k
    · subst hak
      have : ¬ a = k' := h
      simp [dictPop, dictGet, this]
    · by_cases hak' : a = k'
      · subst hak'
        simp [dictPop, dictGet, hak]
      · simp [dictPop, dictGet, hak, hak', ih]

theorem dictGet_dictPop_self {α : Type} {m : List (Nat × α)} {k : Nat}
    (hnd : keysNodup m) : dictGet (dictPop m k) k = none := by
  induction m with
  | nil => simp [dictPop, dictGet]
  | cons hd tl ih =>
    obtain ⟨a, b⟩ := hd
    have ha : a ∉ tl.map Prod.fst := (List.nodup_cons.mp hnd).1
    have hnd' : keysNodup tl := (List.nodup_cons.mp hnd).2
    by_cases hak : a = k
    · subst hak
      simpa [dictPop] using dictGet_eq_none_of_not_mem ha
    · simp [dictPop, dictGet, hak, ih hnd']

theorem guildInv_empty : GuildData.inv GuildData.empty := by
  refine ⟨?_, ?_, ?_⟩
  · simp [GuildData.empty, keysNodup]
  · simp [GuildData.empty, keysNodup]
  · intro k r h
    simp [GuildData.empty, dictGet] at h

theorem indexed_ownerUnique {g : GuildData} (h : GuildData.indexed g) :
    GuildData.ownerUnique g := by
  intro k1 k2 r1 r2 h1 h2 hduid
  have e1 := h k1 r1 h1
  have e2 := h k2 r2 h2
  rw [hduid] at e1
  rw [e1] at e2
  exact (Option.some.injEq _ _ ▸ e2)

theorem detach_prev_keysNodup {waMap : List (Nat × LinkRecord)} {userMap : List (Nat × Nat)}
    {duid waKey : Nat} (hw : keysNodup waMap) :
    keysNodup (VerifiedRegistry.detach_prev waMap userMap duid waKey) := by
  unfold VerifiedRegistry.detach_prev
  split
  · split
    · split
      · split
        · exact keysNodup_dictPop hw
        · exact hw
      · exact hw
    · exact hw
  · exact hw

theorem detach_prev_get {waMap : List (Nat × LinkRecord)} {userMap : List (Nat × Nat)}
    {duid waKey k : Nat} {rr : LinkRecord}
    (hw : keysNodup waMap)
    (h : dictGet (VerifiedRegistry.detach_prev waMap userMap duid waKey) k = some rr) :
    dictGet waMap k = some rr ∧
      (dictGet userMap duid = some k → k ≠ waKey → rr.discord_user_id ≠ duid) := by
  unfold VerifiedRegistry.detach_prev at h
  cases hprev : dictGet userMap duid with
  | none =>
    simp only [hprev] at h
    exact ⟨h, fun hc _ _ => by cases hc⟩
  | some p =>
    simp only [hprev] at h
    by_cases hpw : p ≠ waKey
    · rw [if_pos hpw] at h
      cases hgp : dictGet waMap p with
      | none =>
        simp only [hgp] at h
        refine ⟨h, fun hc hkw _ => ?_⟩
        injection hc with hpk
        rw [hpk] at hgp
        rw [h] at hgp
        cases hgp
      | some oldRec =>
        simp only [hgp] at h
        by_cases hor : oldRec.discord_user_id = duid
        · rw [if_pos hor] at h
          by_cases hpk : p = k
          · rw [hpk] at h
            rw [dictGet_dictPop_self hw] at h
            cases h
          · rw [dictGet_dictPop_ne hpk] at h
            refine ⟨h, fun hc hkw _ => ?_⟩
            injection hc with hpk2
            exact hpk hpk2
        · rw [if_neg hor] at h
          refine ⟨h, fun hc hkw hrr => ?_⟩
          injection hc with hpk
          rw [hpk] at hgp
          rw [h] at hgp
          injection hgp with hge
          rw [hge] at hrr
          exact hor hrr
    · rw [if_neg hpw] at h
      refine ⟨h, fun hc hkw _ => ?_⟩
      injection hc with hpk
      rw [Decidable.not_not] at hpw
      exact hkw (hpk ▸ hpw)

theorem indexed_after_write {waMap : List (Nat × LinkRecord)} {userMap : List (Nat × Nat)}
    {duid waKey : Nat} {r : LinkRecord}
    (hw : keysNodup waMap)
    (hI : ∀ k rr, dictGet waMap k = some rr → dictGet userMap rr.discord_user_id = some k)
    (hrd : r.discord_user_id = duid) :
    ∀ k rr,
      dictGet (dictSet (VerifiedRegistry.detach_prev waMap userMap duid waKey) waKey r) k =
        some rr →
      dictGet (dictSet userMap duid waKey) rr.discord_user_id = some k := by
  intro k rr h
  rw [dictGet_dictSet] at h
  by_cases hk : waKey = k
  · subst hk
    rw [if_pos rfl] at h
    have hr : r = rr := by cases h; rfl
    subst hr
    rw [dictGet_dictSet, hrd, if_pos rfl]
  · rw [if_neg hk] at h
    obtain ⟨h1, h2⟩ := detach_prev_get hw h
    have hIk := hI k rr h1
    rw [dictGet_dictSet]
    by_cases hd2 : duid = rr.discord_user_id
    · exfalso
      have hum : dictGet userMap duid = some k := by rw [hd2]; exact hIk
      exact (h2 hum (fun he => hk he.symm)) hd2.symm
    · rw [if_neg hd2]
      exact hIk

theorem guildInv_write {g : GuildData} {duid waKey : Nat} {r : LinkRecord}
    (hg : GuildData.inv g) (hrd : r.discord_user_id = duid) :
    GuildData.inv
      { g with
        wa_id_map :=
          dictSet (VerifiedRegistry.detach_prev g.wa_id_map g.discord_user_map duid waKey)
            waKey r
        discord_user_map := dictSet g.discord_user_map duid waKey } := by
  obtain ⟨hw, hu, hI⟩ := hg
  refine ⟨?_, ?_, ?_⟩
  · exact keysNodup_dictSet (detach_prev_keysNodup hw)
  · exact keysNodup_dictSet hu
  · exact indexed_after_write hw hI hrd

theorem regInv_write_guild {d : RegistryData} {gid : Nat} {g' : GuildData}
    (hinv : RegistryData.inv d) (hg' : GuildData.inv g') :
    RegistryData.inv ⟨dictSet d.guilds gid g'⟩ := by
  intro gid2 g2 hg2
  have hre : (⟨dictSet d.guilds gid g'⟩ : RegistryData).guilds = dictSet d.guilds gid g' := rfl
  rw [hre, dictGet_dictSet] at hg2
  by_cases h : gid = gid2
  · rw [if_pos h] at hg2
    injection hg2 with he
    rw [← he]
    exact hg'
  · rw [if_neg h] at hg2
    exact hinv gid2 g2 hg2

theorem claim_preserves_inv (d : RegistryData) (a : ClaimArgs) (present : Nat → Bool)
    (now : String) (hinv : RegistryData.inv d) :
    RegistryData.inv (VerifiedRegistry.claim d a present now).2 := by
  have hg0 : GuildData.inv ((dictGet d.guilds a.gid).getD GuildData.empty) := by
    cases hg : dictGet d.guilds a.gid with
    | none => simpa using guildInv_empty
    | some g0 => simpa using hinv a.gid g0 hg
  simp only [VerifiedRegistry.claim]
  split
  · exact regInv_write_guild hinv (guildInv_write hg0 rfl)
  · split
    · exact regInv_write_guild hinv (guildInv_write hg0 (by assumption))
    · split
      · exact hinv
      · exact regInv_write_guild hinv (guildInv_write hg0 rfl)

/-- C1: After every completed `claim` call on a registry state satisfying the
structural invariant (distinct dict keys plus the account-to-externalId
secondary index pointing back at each record), the resulting persisted state
again satisfies the invariant, and in every guild each Discord account is the
current owner of at most one LinkRecord; that each `wa_contact_id` key maps
to at most one record is part of the invariant (`keysNodup`, and `dictGet`
functionality of the dict model). -/
theorem claim_registry_uniqueness_invariant (d : RegistryData) (a : ClaimArgs)
    (present : Nat → Bool) (now : String) (hinv : RegistryData.inv d) :
    RegistryData.inv (VerifiedRegistry.claim d a present now).2 ∧
      ∀ gid g,
        dictGet (VerifiedRegistry.claim d a present now).2.guilds gid = some g →
          GuildData.ownerUnique g := by
  have h2 := claim_preserves_inv d a present now hinv
  exact ⟨h2, fun gid g hg => indexed_ownerUnique (h2 gid g hg).2.2⟩

/-- Witness for C1 at a concrete claim on the fresh registry. -/
theorem claim_registry_uniqueness_invariant_witness :
    RegistryData.inv (VerifiedRegistry.claim RegistryData.empty
        ⟨1, 500, 42, "alice#1", none, none, "Alice A", some "Social", some "Active"⟩
        (fun _ => false) "2025-04-01T12:00:00Z").2 ∧
      ∀ gid g,
        dictGet (VerifiedRegistry.claim RegistryData.empty
            ⟨1, 500, 42, "alice#1", none, none, "Alice A", some "Social", some "Active"⟩
            (fun _ => false) "2025-04-01T12:00:00Z").2.guilds gid = some g →
          GuildData.ownerUnique g :=
  claim_registry_uniqueness_invariant RegistryData.empty
    ⟨1, 500, 42, "alice#1", none, none, "Alice A", some "Social", some "Active"⟩
    (fun _ => false) "2025-04-01T12:00:00Z"
    (by intro gid g hg; simp [RegistryData.empty, dictGet] at hg)

/-- C3: when `claim` finds the external id owned by a different account and
the presence oracle (built from `_is_member_present`, which reports `true`
both on confirmed presence and on the indeterminate `Forbidden`/
`HTTPException` outcomes) reports that owner present, the call returns the
`AlreadyLinked` rejection and the persisted registry state is the unchanged
input state — in particular the caller's previously owned link is still
there, because the in-memory detach is never written. -/
theorem claim_already_linked_no_mutation (d : RegistryData) (a : ClaimArgs)
    (inCache : Nat → Bool) (fetch : Nat → FetchResult) (now : String) (ex : LinkRecord)
    (hex : VerifiedRegistry.claim_existing d a = some ex)
    (hne : ex.discord_user_id ≠ a.discord_user_id)
    (hpres : inCache ex.discord_user_id = true ∨ fetch ex.discord_user_id ≠ FetchResult.notFound) :
    VerifiedRegistry.claim d a
        (fun u => VerifiedRegistry.is_member_present (inCache u) (fetch u)) now =
      (ClaimResult.alreadyLinked, d) := by
  have hp : VerifiedRegistry.is_member_present (inCache ex.discord_user_id)
      (fetch ex.discord_user_id) = true := by
    cases hic : inCache ex.discord_user_id <;> cases hfr : fetch ex.discord_user_id <;>
      simp_all [VerifiedRegistry.is_member_present]
  simp only [VerifiedRegistry.claim_existing] at hex
  simp only [VerifiedRegistry.claim]
  simp only [hex]
  rw [if_neg hne, if_pos hp]

/-- Witness for C3: a second user attempts to claim WA id 500 while its
owner is still present (fetch finds them); the call rejects and leaves the
registry exactly as it was. -/
theorem claim_already_linked_no_mutation_witness :
    VerifiedRegistry.claim_existing
        (VerifiedRegistry.claim RegistryData.empty
          ⟨1, 500, 42, "alice#1", none, none, "Alice A", some "Social", some "Active"⟩
          (fun _ => false) "2025-04-01T12:00:00Z").2
        ⟨1, 500, 43, "bob#1", none, none, "Alice A", some "Social", some "Active"⟩ =
      some ⟨500, 42, "alice#1", none, none, "Alice A", some "Social", some "Active",
        some "2025-04-01T12:00:00Z", some (JVal.s "2025-04-01T12:00:00Z"),
        none, none, none, none⟩ ∧
    VerifiedRegistry.claim
        (VerifiedRegistry.claim RegistryData.empty
          ⟨1, 500, 42, "alice#1", none, none, "Alice A", some "Social", some "Active"⟩
          (fun _ => false) "2025-04-01T12:00:00Z").2
        ⟨1, 500, 43, "bob#1", none, none, "Alice A", some "Social", some "Active"⟩
        (fun _ => VerifiedRegistry.is_member_present false (FetchResult.forbidden)) "2025-04-02T09:00:00Z" =
      (ClaimResult.alreadyLinked,
        (VerifiedRegistry.claim RegistryData.empty
          ⟨1, 500, 42, "alice#1", none, none, "Alice A", some "Social", some "Active"⟩
          (fun _ => false) "2025-04-01T12:00:00Z").2) :=
  ⟨rfl,
    claim_already_linked_no_mutation _ _ (fun _ => false) (fun _ => FetchResult.forbidden)
      "2025-04-02T09:00:00Z" _ rfl (by decide) (Or.inr (by decide))⟩

/-- C4: when `claim` finds the external id owned by a different account and
the presence oracle confirms that owner absent, the call succeeds as a
reassignment: the stored record's owner becomes the caller,
`first_verified_at_utc` is preserved from the existing record,
`last_verified_at_utc` is set to the current time, and the
`reassigned_from_discord_user_id` / `reassigned_at_utc` stamps carry the
previous owner and the current time. -/
theorem claim_reassigns_when_owner_absent (d : RegistryData) (a : ClaimArgs)
    (present : Nat → Bool) (now : String) (ex : LinkRecord) (f : String)
    (hex : VerifiedRegistry.claim_existing d a = some ex)
    (hne : ex.discord_user_id ≠ a.discord_user_id)
    (habs : present ex.discord_user_id = false)
    (hf : ex.first_verified_at_utc = some f) :
    (VerifiedRegistry.claim d a present now).1 =
        ClaimResult.reassigned ex.discord_user_id ∧
      get_wa_record (VerifiedRegistry.claim d a present now).2 a.gid a.wa_contact_id =
        some
          { wa_contact_id := a.wa_contact_id
            discord_user_id := a.discord_user_id
            discord_tag := a.discord_tag
            discord_name := a.discord_name
            discord_global_name := a.discord_global_name
            wa_full_name := a.wa_full_name
            membership_level := a.membership_level
            membership_status := a.membership_status
            first_verified_at_utc := some f
            last_verified_at_utc := some (JVal.s now)
            reassigned_from_discord_user_id := some ex.discord_user_id
            reassigned_at_utc := some now
            demoted_for_season_year := none
            demoted_at_utc := none } := by
  have hnp : ¬ present ex.discord_user_id = true := by
    rw [habs]; exact Bool.false_ne_true
  simp only [VerifiedRegistry.claim_existing] at hex
  simp only [VerifiedRegistry.claim]
  simp only [hex]
  rw [if_neg hne, if_neg hnp]
  refine ⟨rfl, ?_⟩
  simp [get_wa_record, dictGet_dictSet, hf]

/-- Witness for C4: user 43 takes over WA id 500 from the absent user 42;
the reassigned record keeps the original `first_verified_at_utc`. -/
theorem claim_reassigns_when_owner_absent_witness :
    VerifiedRegistry.claim_existing
        (VerifiedRegistry.claim RegistryData.empty
          ⟨1, 500, 42, "alice#1", none, none, "Alice A", some "Social", some "Active"⟩
          (fun _ => false) "2025-04-01T12:00:00Z").2
        ⟨1, 500, 43, "bob#1", none, none, "Alice A", some "Social", some "Active"⟩ =
      some ⟨500, 42, "alice#1", none, none, "Alice A", some "Social", some "Active",
        some "2025-04-01T12:00:00Z", some (JVal.s "2025-04-01T12:00:00Z"),
        none, none, none, none⟩ ∧
    (VerifiedRegistry.claim
        (VerifiedRegistry.claim RegistryData.empty
          ⟨1, 500, 42, "alice#1", none, none, "Alice A", some "Social", some "Active"⟩
          (fun _ => false) "2025-04-01T12:00:00Z").2
        ⟨1, 500, 43, "bob#1", none, none, "Alice A", some "Social", some "Active"⟩
        (fun _ => false) "2025-04-02T09:00:00Z").1 = ClaimResult.reassigned 42 ∧
    get_wa_record
        (VerifiedRegistry.claim
          (VerifiedRegistry.claim RegistryData.empty
            ⟨1, 500, 42, "alice#1", none, none, "Alice A", some "Social", some "Active"⟩
            (fun _ => false) "2025-04-01T12:00:00Z").2
          ⟨1, 500, 43, "bob#1", none, none, "Alice A", some "Social", some "Active"⟩
          (fun _ => false) "2025-04-02T09:00:00Z").2 1 500 =
      some ⟨500, 43, "bob#1", none, none, "Alice A", some "Social", some "Active",
        some "2025-04-01T12:00:00Z", some (JVal.s "2025-04-02T09:00:00Z"),
        some 42, some "2025-04-02T09:00:00Z", none, none⟩ := by
  have h := claim_reassigns_when_owner_absent
    (VerifiedRegistry.claim RegistryData.empty
      ⟨1, 500, 42, "alice#1", none, none, "Alice A", some "Social", some "Active"⟩
      (fun _ => false) "2025-04-01T12:00:00Z").2
    ⟨1, 500, 43, "bob#1", none, none, "Alice A", some "Social", some "Active"⟩
    (fun _ => false) "2025-04-02T09:00:00Z"
    ⟨500, 42, "alice#1", none, none, "Alice A", some "Social", some "Active",
      some "2025-04-01T12:00:00Z", some (JVal.s "2025-04-01T12:00:00Z"),
      none, none, none, none⟩
    "2025-04-01T12:00:00Z" rfl (by decide) rfl rfl
  exact ⟨rfl, h.1, h.2⟩

theorem dm_sent_at_mark_dm_sent (d : RegistryData) (g y : Nat) (t : String) :
    dm_sent_at (VerifiedRegistry.mark_dm_sent d g y t) g y = some t := by
  simp [dm_sent_at, VerifiedRegistry.mark_dm_sent, dictGet_dictSet]

theorem enforced_at_mark_enforced (d : RegistryData) (g y : Nat) (t : String) :
    enforced_at (VerifiedRegistry.mark_enforced d g y t) g y = some t := by
  simp [enforced_at, VerifiedRegistry.mark_enforced, dictGet_dictSet]

theorem was_dm_sent_eq_truthy (d : RegistryData) (g y : Nat) :
    VerifiedRegistry.was_dm_sent d g y = pyTruthy (dm_sent_at d g y) := rfl

theorem was_enforced_eq_truthy (d : RegistryData) (g y : Nat) :
    VerifiedRegistry.was_enforced d g y = pyTruthy (enforced_at d g y) := rfl

/-- Counterexample to C2: two `mark_dm_sent` (resp. `mark_enforced`) calls at
distinct clock readings leave the stored timestamp equal to the *second*
reading — the second call is not a no-op and does move the timestamp. -/
theorem mark_second_call_moves_timestamp_cex :
    dm_sent_at (VerifiedRegistry.mark_dm_sent RegistryData.empty 1 2025
        "2025-04-01T16:00:00Z") 1 2025 = some "2025-04-01T16:00:00Z" ∧
    dm_sent_at (VerifiedRegistry.mark_dm_sent
        (VerifiedRegistry.mark_dm_sent RegistryData.empty 1 2025 "2025-04-01T16:00:00Z")
        1 2025 "2025-04-02T09:00:00Z") 1 2025 = some "2025-04-02T09:00:00Z" ∧
    (some "2025-04-01T16:00:00Z" : Option String) ≠ some "2025-04-02T09:00:00Z" ∧
    enforced_at (VerifiedRegistry.mark_enforced
        (VerifiedRegistry.mark_enforced RegistryData.empty 1 2025 "2025-04-14T07:05:00Z")
        1 2025 "2025-04-15T07:05:00Z") 1 2025 = some "2025-04-15T07:05:00Z" :=
  ⟨rfl, rfl, by decide, rfl⟩

/-- C2 (amended): a second `mark_dm_sent` / `mark_enforced` call for the same
guild and year overwrites the stored timestamp with its own current time, but
the boolean flag observed by `was_dm_sent` / `was_enforced` is `true` before
and after the second call — so the actions gated on those flags are still
never repeated. -/
theorem mark_second_call_keeps_flag_moves_timestamp (d : RegistryData) (g y : Nat)
    (t1 t2 : String) (h1 : t1 ≠ "") (h2 : t2 ≠ "") :
    VerifiedRegistry.was_dm_sent (VerifiedRegistry.mark_dm_sent d g y t1) g y = true ∧
    dm_sent_at
        (VerifiedRegistry.mark_dm_sent (VerifiedRegistry.mark_dm_sent d g y t1) g y t2)
        g y = some t2 ∧
    VerifiedRegistry.was_dm_sent
        (VerifiedRegistry.mark_dm_sent (VerifiedRegistry.mark_dm_sent d g y t1) g y t2)
        g y = true ∧
    VerifiedRegistry.was_enforced (VerifiedRegistry.mark_enforced d g y t1) g y = true ∧
    enforced_at
        (VerifiedRegistry.mark_enforced (VerifiedRegistry.mark_enforced d g y t1) g y t2)
        g y = some t2 ∧
    VerifiedRegistry.was_enforced
        (VerifiedRegistry.mark_enforced (VerifiedRegistry.mark_enforced d g y t1) g y t2)
        g y = true := by
  refine ⟨?_, dm_sent_at_mark_dm_sent _ _ _ _, ?_, ?_, enforced_at_mark_enforced _ _ _ _, ?_⟩
  · rw [was_dm_sent_eq_truthy, dm_sent_at_mark_dm_sent]
    simp [pyTruthy, h1]
  · rw [was_dm_sent_eq_truthy, dm_sent_at_mark_dm_sent]
    simp [pyTruthy, h2]
  · rw [was_enforced_eq_truthy, enforced_at_mark_enforced]
    simp [pyTruthy, h1]
  · rw [was_enforced_eq_truthy, enforced_at_mark_enforced]
    simp [pyTruthy, h2]

/-- Witness for the amended C2 at concrete timestamps. -/
theorem mark_second_call_keeps_flag_moves_timestamp_witness :
    ("2025-04-01T16:00:00Z" ≠ "" ∧ "2025-04-02T09:00:00Z" ≠ "") ∧
    (VerifiedRegistry.was_dm_sent
        (VerifiedRegistry.mark_dm_sent RegistryData.empty 7 2025 "2025-04-01T16:00:00Z")
        7 2025 = true ∧
      dm_sent_at
          (VerifiedRegistry.mark_dm_sent
            (VerifiedRegistry.mark_dm_sent RegistryData.empty 7 2025 "2025-04-01T16:00:00Z")
            7 2025 "2025-04-02T09:00:00Z") 7 2025 = some "2025-04-02T09:00:00Z" ∧
      VerifiedRegistry.was_dm_sent
          (VerifiedRegistry.mark_dm_sent
            (VerifiedRegistry.mark_dm_sent RegistryData.empty 7 2025 "2025-04-01T16:00:00Z")
            7 2025 "2025-04-02T09:00:00Z") 7 2025 = true ∧
      VerifiedRegistry.was_enforced
          (VerifiedRegistry.mark_enforced RegistryData.empty 7 2025 "2025-04-01T16:00:00Z")
          7 2025 = true ∧
      enforced_at
          (VerifiedRegistry.mark_enforced
            (VerifiedRegistry.mark_enforced RegistryData.empty 7 2025 "2025-04-01T16:00:00Z")
            7 2025 "2025-04-02T09:00:00Z") 7 2025 = some "2025-04-02T09:00:00Z" ∧
      VerifiedRegistry.was_enforced
          (VerifiedRegistry.mark_enforced
            (VerifiedRegistry.mark_enforced RegistryData.empty 7 2025 "2025-04-01T16:00:00Z")
            7 2025 "2025-04-02T09:00:00Z") 7 2025 = true) :=
  ⟨⟨by decide, by decide⟩,
    mark_second_call_keeps_flag_moves_timestamp RegistryData.empty 7 2025
      "2025-04-01T16:00:00Z" "2025-04-02T09:00:00Z" (by decide) (by decide)⟩

/-- Counterexample to C8: a `201 Created` response is a 2xx response, yet
`get_contact` raises (`ServiceError` to the caller) instead of returning the
membership record, because the code accepts exactly status 200. -/
theorem get_contact_201_error_cex :
    (200 ≤ 201 ∧ 201 < 300) ∧
    WildApricotClient.get_contact true (WAResponse.httpResp 201 "body") =
      Except.error "WA contact lookup failed" :=
  ⟨by decide, rfl⟩

/-- C8 (amended): `get_contact` returns the distinct "not found" value
exactly on a 404, returns the membership record exactly on a 200 (any other
status — other 2xx codes included — fails with a `ServiceError`-style
exception), and fails on transport or token-acquisition failure; absence is
never reported as an error and an error is never reported as absence. -/
theorem get_contact_response_classification (status : Nat) (body : String) :
    WildApricotClient.get_contact true (WAResponse.httpResp status body) =
      (if status = 404 then Except.ok ContactResult.notFound
       else if status = 200 then Except.ok (ContactResult.found body)
       else Except.error "WA contact lookup failed") ∧
    WildApricotClient.get_contact true WAResponse.transportError =
      Except.error "transport failure" ∧
    WildApricotClient.get_contact false (WAResponse.httpResp status body) =
      Except.error "WA token request failed" := by
  refine ⟨?_, rfl, rfl⟩
  by_cases h4 : status = 404
  · simp [WildApricotClient.get_contact, h4]
  · by_cases h2 : status = 200
    · simp [WildApricotClient.get_contact, h4, h2]
    · simp [WildApricotClient.get_contact, h4, h2]

/-- C9: a missing, blank, syntactically invalid, or non-object registry file
loads as the fresh empty state, and every registry operation run against such
a file computes exactly what it computes on the empty registry (the
operations are total functions of the loaded state, so none of them can fail
because of the corrupt file). -/
theorem load_corrupt_behaves_as_empty (c : StoredFile)
    (hc : c = StoredFile.missing ∨ c = StoredFile.blank ∨ c = StoredFile.invalidJson ∨
      c = StoredFile.nonObjectTop) :
    VerifiedRegistry.load c = RegistryData.empty ∧
    (∀ a present now, VerifiedRegistry.claim_from_file c a present now =
        VerifiedRegistry.claim RegistryData.empty a present now) ∧
    (∀ g, VerifiedRegistry.list_wa_records_from_file c g =
        VerifiedRegistry.list_wa_records RegistryData.empty g) ∧
    (∀ g y, VerifiedRegistry.was_dm_sent_from_file c g y =
        VerifiedRegistry.was_dm_sent RegistryData.empty g y) ∧
    (∀ g y now, VerifiedRegistry.mark_dm_sent_from_file c g y now =
        VerifiedRegistry.mark_dm_sent RegistryData.empty g y now) ∧
    (∀ g y, VerifiedRegistry.was_enforced_from_file c g y =
        VerifiedRegistry.was_enforced RegistryData.empty g y) ∧
    (∀ g y now, VerifiedRegistry.mark_enforced_from_file c g y now =
        VerifiedRegistry.mark_enforced RegistryData.empty g y now) ∧
    (∀ g w patch, VerifiedRegistry.update_wa_record_from_file c g w patch =
        VerifiedRegistry.update_wa_record RegistryData.empty g w patch) := by
  have hl : VerifiedRegistry.load c = RegistryData.empty := by
    rcases hc with rfl | rfl | rfl | rfl <;> rfl
  refine ⟨hl, ?_, ?_, ?_, ?_, ?_, ?_, ?_⟩ <;> intros <;>
    simp only [VerifiedRegistry.claim_from_file, VerifiedRegistry.list_wa_records_from_file,
      VerifiedRegistry.was_dm_sent_from_file, VerifiedRegistry.mark_dm_sent_from_file,
      VerifiedRegistry.was_enforced_from_file, VerifiedRegistry.mark_enforced_from_file,
      VerifiedRegistry.update_wa_record_from_file, hl]

/-- Witness for C9 at the missing-file case. -/
theorem load_corrupt_behaves_as_empty_witness :
    (StoredFile.missing = StoredFile.missing ∨ StoredFile.missing = StoredFile.blank ∨
      StoredFile.missing = StoredFile.invalidJson ∨
      StoredFile.missing = StoredFile.nonObjectTop) ∧
    VerifiedRegistry.load StoredFile.missing = RegistryData.empty ∧
    (∀ a present now, VerifiedRegistry.claim_from_file StoredFile.missing a present now =
        VerifiedRegistry.claim RegistryData.empty a present now) ∧
    (∀ g, VerifiedRegistry.list_wa_records_from_file StoredFile.missing g =
        VerifiedRegistry.list_wa_records RegistryData.empty g) ∧
    (∀ g y, VerifiedRegistry.was_dm_sent_from_file StoredFile.missing g y =
        VerifiedRegistry.was_dm_sent RegistryData.empty g y) ∧
    (∀ g y now, VerifiedRegistry.mark_dm_sent_from_file StoredFile.missing g y now =
        VerifiedRegistry.mark_dm_sent RegistryData.empty g y now) ∧
    (∀ g y, VerifiedRegistry.was_enforced_from_file StoredFile.missing g y =
        VerifiedRegistry.was_enforced RegistryData.empty g y) ∧
    (∀ g y now, VerifiedRegistry.mark_enforced_from_file StoredFile.missing g y now =
        VerifiedRegistry.mark_enforced RegistryData.empty g y now) ∧
    (∀ g w patch, VerifiedRegistry.update_wa_record_from_file StoredFile.missing g w patch =
        VerifiedRegistry.update_wa_record RegistryData.empty g w patch) :=
  ⟨Or.inl rfl, load_corrupt_behaves_as_empty StoredFile.missing (Or.inl rfl)⟩

theorem enforce_step_eq (guild_id season_year : Nat) (seasonStart : PyDateTime)
    (memberLookup : Nat → MemberLookup) (fromiso : String → Option PyDateTime)
    (now : String) (acc : List (Nat × Nat) × RegistryData) (p : Nat × LinkRecord) :
    VerifyCog.enforce_step guild_id season_year seasonStart memberLookup fromiso now acc p =
      if demotes seasonStart memberLookup fromiso p.2 then
        (acc.1 ++ [(p.1, p.2.discord_user_id)],
          VerifiedRegistry.update_wa_record acc.2 guild_id p.2.wa_contact_id
            (demotion_patch season_year now))
      else acc := by
  unfold VerifyCog.enforce_step demotes
  cases hm : sweep_member_found (memberLookup p.2.discord_user_id)
  · simp
  · cases hp : parse_utc_iso fromiso p.2.last_verified_at_utc with
    | none => simp [hp]
    | some t =>
      cases hleb : PyDateTime.leb seasonStart t
      · simp [hp, hleb]
      · simp [hp, hleb]

theorem enforce_fold_demoted (guild_id season_year : Nat) (seasonStart : PyDateTime)
    (memberLookup : Nat → MemberLookup) (fromiso : String → Option PyDateTime)
    (now : String) (recs : List (Nat × LinkRecord)) :
    ∀ acc : List (Nat × Nat) × RegistryData,
      (recs.foldl
          (VerifyCog.enforce_step guild_id season_year seasonStart memberLookup fromiso now)
          acc).1 =
        acc.1 ++
          (recs.filter (fun p => demotes seasonStart memberLookup fromiso p.2)).map
            (fun p => (p.1, p.2.discord_user_id)) := by
  induction recs with
  | nil => intro acc; simp
  | cons hd tl ih =>
    intro acc
    rw [List.foldl_cons, enforce_step_eq]
    cases hdem : demotes seasonStart memberLookup fromiso hd.2
    · rw [if_neg (by simp [hdem])]
      rw [ih acc]
      simp [List.filter_cons, hdem]
    · rw [if_pos (by simp [hdem])]
      rw [ih]
      simp [List.filter_cons, hdem]

theorem enforce_fold_state (guild_id season_year : Nat) (seasonStart : PyDateTime)
    (memberLookup : Nat → MemberLookup) (fromiso : String → Option PyDateTime)
    (now : String) (recs : List (Nat × LinkRecord)) :
    ∀ acc : List (Nat × Nat) × RegistryData,
      (recs.foldl
          (VerifyCog.enforce_step guild_id season_year seasonStart memberLookup fromiso now)
          acc).2 =
        recs.foldl
          (fun dd p =>
            if demotes seasonStart memberLookup fromiso p.2 then
              VerifiedRegistry.update_wa_record dd guild_id p.2.wa_contact_id
                (demotion_patch season_year now)
            else dd)
          acc.2 := by
  induction recs with
  | nil => intro acc; simp
  | cons hd tl ih =>
    intro acc
    rw [List.foldl_cons, List.foldl_cons, enforce_step_eq]
    cases hdem : demotes seasonStart memberLookup fromiso hd.2
    · rw [if_neg (by simp [hdem]), if_neg (by simp [hdem])]
      exact ih acc
    · rw [if_pos (by simp [hdem]), if_pos (by simp [hdem])]
      exact ih _

theorem get_wa_record_update_other {d : RegistryData} {gid w k : Nat}
    (patch : LinkRecord → LinkRecord) (hwk : w ≠ k) :
    get_wa_record (VerifiedRegistry.update_wa_record d gid w patch) gid k =
      get_wa_record d gid k := by
  simp only [VerifiedRegistry.update_wa_record]
  cases hr : dictGet ((dictGet d.guilds gid).getD GuildData.empty).wa_id_map w with
  | none => rfl
  | some r =>
    simp only [hr]
    unfold get_wa_record
    have hg : dictGet
        (dictSet d.guilds gid
          { (dictGet d.guilds gid).getD GuildData.empty with
            wa_id_map :=
              dictSet ((dictGet d.guilds gid).getD GuildData.empty).wa_id_map w (patch r) })
        gid =
        some
          { (dictGet d.guilds gid).getD GuildData.empty with
            wa_id_map :=
              dictSet ((dictGet d.guilds gid).getD GuildData.empty).wa_id_map w (patch r) } := by
      rw [dictGet_dictSet, if_pos rfl]
    simp only [hg, Option.getD_some, dictGet_dictSet, if_neg hwk]

theorem get_wa_record_update_self {d : RegistryData} {gid w : Nat} {r : LinkRecord}
    (patch : LinkRecord → LinkRecord) (hr : get_wa_record d gid w = some r) :
    get_wa_record (VerifiedRegistry.update_wa_record d gid w patch) gid w =
      some (patch r) := by
  unfold get_wa_record at hr
  simp only [VerifiedRegistry.update_wa_record]
  simp only [hr]
  unfold get_wa_record
  have hg : dictGet
      (dictSet d.guilds gid
        { (dictGet d.guilds gid).getD GuildData.empty with
          wa_id_map :=
            dictSet ((dictGet d.guilds gid).getD GuildData.empty).wa_id_map w (patch r) })
      gid =
      some
        { (dictGet d.guilds gid).getD GuildData.empty with
          wa_id_map :=
            dictSet ((dictGet d.guilds gid).getD GuildData.empty).wa_id_map w (patch r) } := by
    rw [dictGet_dictSet, if_pos rfl]
  simp only [hg, Option.getD_some, dictGet_dictSet]
  simp

theorem get_wa_record_mark_enforced (d : RegistryData) (g y : Nat) (t : String)
    (g2 k : Nat) :
    get_wa_record (VerifiedRegistry.mark_enforced d g y t) g2 k = get_wa_record d g2 k := by
  unfold VerifiedRegistry.mark_enforced get_wa_record
  by_cases hgg : g = g2
  · subst hgg
    rw [dictGet_dictSet, if_pos rfl]
    cases hg : dictGet d.guilds g with
    | none => simp [hg, GuildData.empty]
    | some g0 => simp [hg]
  · rw [dictGet_dictSet, if_neg hgg]

theorem list_wa_records_get (d : RegistryData) (gid k : Nat) :
    dictGet (VerifiedRegistry.list_wa_records d gid) k = get_wa_record d gid k := rfl

theorem enforce_updates_fold_other (gid y : Nat) (ss : PyDateTime)
    (ml : Nat → MemberLookup) (fi : String → Option PyDateTime) (now : String)
    (recs : List (Nat × LinkRecord)) (k : Nat)
    (hno : ∀ p ∈ recs, p.2.wa_contact_id ≠ k) :
    ∀ dd : RegistryData,
      get_wa_record
          (recs.foldl
            (fun dd p =>
              if demotes ss ml fi p.2 then
                VerifiedRegistry.update_wa_record dd gid p.2.wa_contact_id
                  (demotion_patch y now)
              else dd)
            dd)
          gid k =
        get_wa_record dd gid k := by
  induction recs with
  | nil => intro dd; rfl
  | cons hd tl ih =>
    intro dd
    rw [List.foldl_cons]
    have hstep : ∀ dd2 : RegistryData,
        get_wa_record
            (if demotes ss ml fi hd.2 then
              VerifiedRegistry.update_wa_record dd2 gid hd.2.wa_contact_id
                (demotion_patch y now)
            else dd2)
            gid k =
          get_wa_record dd2 gid k := by
      intro dd2
      cases hdem : demotes ss ml fi hd.2
      · rw [if_neg (by simp [hdem])]
      · rw [if_pos (by simp [hdem])]
        exact get_wa_record_update_other _ (hno hd (List.mem_cons_self _ _))
    rw [ih (fun p hp => hno p (List.mem_cons_of_mem _ hp)), hstep]

theorem enforce_updates_fold_self (gid y : Nat) (ss : PyDateTime)
    (ml : Nat → MemberLookup) (fi : String → Option PyDateTime) (now : String)
    (recs : List (Nat × LinkRecord)) (k : Nat) (r : LinkRecord)
    (hnd : keysNodup recs)
    (hwk : ∀ p ∈ recs, p.1 = p.2.wa_contact_id)
    (hget : dictGet recs k = some r) :
    ∀ dd : RegistryData, get_wa_record dd gid k = some r →
      get_wa_record
          (recs.foldl
            (fun dd p =>
              if demotes ss ml fi p.2 then
                VerifiedRegistry.update_wa_record dd gid p.2.wa_contact_id
                  (demotion_patch y now)
              else dd)
            dd)
          gid k =
        some (if demotes ss ml fi r then demotion_patch y now r else r) := by
  induction recs with
  | nil => intro dd _; simp [dictGet] at hget
  | cons hd tl ih =>
    intro dd hdd
    have hndtl : keysNodup tl := (List.nodup_cons.mp hnd).2
    have hhd : hd.1 ∉ tl.map Prod.fst := (List.nodup_cons.mp hnd).1
    rw [List.foldl_cons]
    by_cases hpk : hd.1 = k
    · have hr : hd.2 = r := by
        have : dictGet (hd :: tl) k = some hd.2 := by
          obtain ⟨a, b⟩ := hd
          simp only [dictGet]
          simp only at hpk
          rw [if_pos hpk]
        rw [this] at hget
        injection hget
      have hno : ∀ p ∈ tl, p.2.wa_contact_id ≠ k := by
        intro p hp
        rw [← hwk p (List.mem_cons_of_mem _ hp)]
        intro hcon
        apply hhd
        rw [hpk, ← hcon]
        exact List.mem_map_of_mem Prod.fst hp
      rw [enforce_updates_fold_other gid y ss ml fi now tl k hno]
      have hwck : hd.2.wa_contact_id = k := by
        rw [← hwk hd (List.mem_cons_self _ _), hpk]
      cases hdem : demotes ss ml fi hd.2
      · rw [if_neg (by simp [hdem])]
        rw [hr] at hdem
        rw [if_neg (by simp [hdem])]
        exact hdd
      · rw [if_pos (by simp [hdem])]
        rw [hr] at hdem
        rw [if_pos (by simp [hdem])]
        rw [hwck]
        rw [← hr]
        exact get_wa_record_update_self _ (hr ▸ hdd)
    · have hget' : dictGet tl k = some r := by
        obtain ⟨a, b⟩ := hd
        simp only [dictGet] at hget
        simp only at hpk
        rw [if_neg hpk] at hget
        exact hget
      have hdd' : get_wa_record
          (if demotes ss ml fi hd.2 then
            VerifiedRegistry.update_wa_record dd gid hd.2.wa_contact_id
              (demotion_patch y now)
          else dd)
          gid k = some r := by
        cases hdem : demotes ss ml fi hd.2
        · rw [if_neg (by simp [hdem])]; exact hdd
        · rw [if_pos (by simp [hdem])]
          have : hd.2.wa_contact_id ≠ k := by
            rw [← hwk hd (List.mem_cons_self _ _)]
            exact hpk
          rw [get_wa_record_update_other _ this]
          exact hdd
      exact ih hndtl (fun p hp => hwk p (List.mem_cons_of_mem _ hp)) hget' _ hdd'

theorem enforce_reverify_eq_done {d : RegistryData} {gid y : Nat}
    (ml : Nat → MemberLookup) (fi : String → Option PyDateTime) (now : String)
    (henf : VerifiedRegistry.was_enforced d gid y = true) :
    VerifyCog.enforce_reverify_for_season d gid y ml fi now = (false, [], d) := by
  simp [VerifyCog.enforce_reverify_for_season, henf]

theorem enforce_reverify_eq_run {d : RegistryData} {gid y : Nat}
    (ml : Nat → MemberLookup) (fi : String → Option PyDateTime) (now : String)
    (henf : VerifiedRegistry.was_enforced d gid y = false) :
    VerifyCog.enforce_reverify_for_season d gid y ml fi now =
      (true,
        ((VerifiedRegistry.list_wa_records d gid).filter
            (fun p => demotes (season_start_utc y) ml fi p.2)).map
          (fun p => (p.1, p.2.discord_user_id)),
        VerifiedRegistry.mark_enforced
          ((VerifiedRegistry.list_wa_records d gid).foldl
            (fun dd p =>
              if demotes (season_start_utc y) ml fi p.2 then
                VerifiedRegistry.update_wa_record dd gid p.2.wa_contact_id
                  (demotion_patch y now)
              else dd)
            d)
          gid y now) := by
  simp only [VerifyCog.enforce_reverify_for_season, henf]
  rw [if_neg (by simp)]
  rw [enforce_fold_demoted, enforce_fold_state]
  simp

/-- C7: during an enforcement sweep for a season year, a LinkRecord whose
`last_verified_at_utc` parses to an instant at or after that season's start
instant is never demoted: no demotion with its `wa_id_map` key appears in the
sweep's demotion list, no demotion is performed for its owner, and the stored
record — in particular its absent `demoted_for_season_year` /
`demoted_at_utc` fields — is unchanged by the sweep.  The hypotheses are the
structural facts true of every registry state `claim` produces: distinct
keys, each record filed under its own `wa_contact_id`, and one owner per
record. -/
theorem enforce_never_demotes_compliant (d : RegistryData) (gid y : Nat)
    (ml : Nat → MemberLookup) (fi : String → Option PyDateTime) (now : String)
    (k : Nat) (r : LinkRecord) (t : PyDateTime)
    (hnd : keysNodup (VerifiedRegistry.list_wa_records d gid))
    (hwk : ∀ p ∈ VerifiedRegistry.list_wa_records d gid, p.1 = p.2.wa_contact_id)
    (huniq : GuildData.ownerUnique ((dictGet d.guilds gid).getD GuildData.empty))
    (hget : get_wa_record d gid k = some r)
    (hparse : parse_utc_iso fi r.last_verified_at_utc = some t)
    (hcompl : PyDateTime.leb (season_start_utc y) t = true) :
    (∀ u, (k, u) ∉ (VerifyCog.enforce_reverify_for_season d gid y ml fi now).2.1) ∧
      (∀ q ∈ (VerifyCog.enforce_reverify_for_season d gid y ml fi now).2.1,
        q.2 ≠ r.discord_user_id) ∧
      get_wa_record (VerifyCog.enforce_reverify_for_season d gid y ml fi now).2.2 gid k =
        some r := by
  have hdem : demotes (season_start_utc y) ml fi r = false := by
    simp [demotes, hparse, hcompl]
  have hgl : dictGet (VerifiedRegistry.list_wa_records d gid) k = some r := hget
  cases henf : VerifiedRegistry.was_enforced d gid y
  · rw [enforce_reverify_eq_run ml fi now henf]
    refine ⟨?_, ?_, ?_⟩
    · intro u hu
      simp only [List.mem_map] at hu
      obtain ⟨p, hpf, hpe⟩ := hu
      rw [List.mem_filter] at hpf
      obtain ⟨hpmem, hpdem⟩ := hpf
      have hk : p.1 = k := by
        have := congrArg Prod.fst hpe
        simpa using this
      have hthis : dictGet (VerifiedRegistry.list_wa_records d gid) k = some p.2 := by
        rw [← hk]
        exact mem_dictGet hnd hpmem
      rw [hgl] at hthis
      injection hthis with hpr
      rw [hpr] at hdem
      rw [hdem] at hpdem
      cases hpdem
    · intro q hq hqd
      simp only [List.mem_map] at hq
      obtain ⟨p, hpf, hpe⟩ := hq
      rw [List.mem_filter] at hpf
      obtain ⟨hpmem, hpdem⟩ := hpf
      have hq2 : p.2.discord_user_id = r.discord_user_id := by
        have := congrArg Prod.snd hpe
        simp at this
        rw [this]
        exact hqd
      have hdg : dictGet (VerifiedRegistry.list_wa_records d gid) p.1 = some p.2 :=
        mem_dictGet hnd hpmem
      have hk : p.1 = k := huniq p.1 k p.2 r hdg hgl hq2
      rw [hk, hgl] at hdg
      injection hdg with hpr
      rw [← hpr] at hpdem
      rw [hdem] at hpdem
      cases hpdem
    · rw [get_wa_record_mark_enforced]
      rw [enforce_updates_fold_self gid y (season_start_utc y) ml fi now
        (VerifiedRegistry.list_wa_records d gid) k r hnd hwk hgl d hget]
      rw [hdem]
      simp
  · rw [enforce_reverify_eq_done ml fi now henf]
    exact ⟨fun u hu => by simp at hu, fun q hq => by simp at hq, hget⟩

/-- C10: during an enforcement sweep with the season flag unset, a LinkRecord
whose `last_verified_at_utc` does not parse (absent, not a string, or
rejected by `fromisoformat`) is treated as non-compliant: if its owner is
confirmed present, the demotion action is performed for that record's owner
and the stored record is stamped with `demoted_for_season_year` /
`demoted_at_utc`. -/
theorem enforce_demotes_unparseable_last_verified (d : RegistryData) (gid y : Nat)
    (ml : Nat → MemberLookup) (fi : String → Option PyDateTime) (now : String)
    (k : Nat) (r : LinkRecord)
    (henf : VerifiedRegistry.was_enforced d gid y = false)
    (hnd : keysNodup (VerifiedRegistry.list_wa_records d gid))
    (hwk : ∀ p ∈ VerifiedRegistry.list_wa_records d gid, p.1 = p.2.wa_contact_id)
    (hget : get_wa_record d gid k = some r)
    (hparse : parse_utc_iso fi r.last_verified_at_utc = none)
    (hfound : sweep_member_found (ml r.discord_user_id) = true) :
    (k, r.discord_user_id) ∈ (VerifyCog.enforce_reverify_for_season d gid y ml fi now).2.1 ∧
      get_wa_record (VerifyCog.enforce_reverify_for_season d gid y ml fi now).2.2 gid k =
        some (demotion_patch y now r) := by
  have hdem : demotes (season_start_utc y) ml fi r = true := by
    simp [demotes, hparse, hfound]
  have hgl : dictGet (VerifiedRegistry.list_wa_records d gid) k = some r := hget
  rw [enforce_reverify_eq_run ml fi now henf]
  constructor
  · simp only [List.mem_map]
    refine ⟨(k, r), ?_, rfl⟩
    rw [List.mem_filter]
    exact ⟨dictGet_some_mem hgl, hdem⟩
  · rw [get_wa_record_mark_enforced]
    rw [enforce_updates_fold_self gid y (season_start_utc y) ml fi now
      (VerifiedRegistry.list_wa_records d gid) k r hnd hwk hgl d hget]
    rw [hdem]
    simp

theorem ownerUnique_of_pairwise {g : GuildData}
    (h : ∀ p ∈ g.wa_id_map, ∀ q ∈ g.wa_id_map,
      p.2.discord_user_id = q.2.discord_user_id → p.1 = q.1) :
    GuildData.ownerUnique g := by
  intro k1 k2 r1 r2 h1 h2 hd
  exact h (k1, r1) (dictGet_some_mem h1) (k2, r2) (dictGet_some_mem h2) hd

/-- Witness for C7: in the fixture state, the compliant record 500 is not in
the demotion list of the 2025 sweep, its owner 42 is not demoted, and the
record survives the sweep unchanged. -/
theorem enforce_never_demotes_compliant_witness :
    parse_utc_iso fixtureFromiso fixtureRecord500.last_verified_at_utc =
        some ⟨2025, 4, 5, 12, 0, 0⟩ ∧
    PyDateTime.leb (season_start_utc 2025) ⟨2025, 4, 5, 12, 0, 0⟩ = true ∧
    (∀ u, (500, u) ∉ (VerifyCog.enforce_reverify_for_season fixtureState 1 2025
        (fun _ => MemberLookup.cached) fixtureFromiso "2025-04-14T07:05:00Z").2.1) ∧
      (∀ q ∈ (VerifyCog.enforce_reverify_for_season fixtureState 1 2025
          (fun _ => MemberLookup.cached) fixtureFromiso "2025-04-14T07:05:00Z").2.1,
        q.2 ≠ fixtureRecord500.discord_user_id) ∧
      get_wa_record (VerifyCog.enforce_reverify_for_season fixtureState 1 2025
          (fun _ => MemberLookup.cached) fixtureFromiso "2025-04-14T07:05:00Z").2.2 1 500 =
        some fixtureRecord500 := by
  refine ⟨rfl, by decide, ?_⟩
  exact enforce_never_demotes_compliant fixtureState 1 2025 (fun _ => MemberLookup.cached)
    fixtureFromiso "2025-04-14T07:05:00Z" 500 fixtureRecord500 ⟨2025, 4, 5, 12, 0, 0⟩
    (by decide) (by decide)
    (ownerUnique_of_pairwise (by decide))
    rfl rfl (by decide)

/-- Witness for C10: in the fixture state, record 600 (non-string
`last_verified_at_utc`, owner present) is demoted by the 2025 sweep and
stamped with the demotion metadata. -/
theorem enforce_demotes_unparseable_last_verified_witness :
    parse_utc_iso fixtureFromiso fixtureRecord600.last_verified_at_utc = none ∧
    VerifiedRegistry.was_enforced fixtureState 1 2025 = false ∧
    ((600, 43) ∈ (VerifyCog.enforce_reverify_for_season fixtureState 1 2025
        (fun _ => MemberLookup.fetched) fixtureFromiso "2025-04-14T07:05:00Z").2.1 ∧
      get_wa_record (VerifyCog.enforce_reverify_for_season fixtureState 1 2025
          (fun _ => MemberLookup.fetched) fixtureFromiso "2025-04-14T07:05:00Z").2.2 1 600 =
        some (demotion_patch 2025 "2025-04-14T07:05:00Z" fixtureRecord600)) := by
  refine ⟨rfl, rfl, ?_⟩
  exact enforce_demotes_unparseable_last_verified fixtureState 1 2025
    (fun _ => MemberLookup.fetched) fixtureFromiso "2025-04-14T07:05:00Z" 600
    fixtureRecord600 rfl (by decide) (by decide) rfl rfl (by decide)

theorem PyDate.ltb_leb_absurd {a b : PyDate} (h1 : PyDate.ltb a b = true)
    (h2 : PyDate.leb b a = true) : False := by
  obtain ⟨y1, m1, d1⟩ := a
  obtain ⟨y2, m2, d2⟩ := b
  simp [PyDate.ltb, PyDate.leb, PyDate.mk.injEq] at h1 h2
  omega

theorem bool_eq_false_of_ne_true {b : Bool} (h : ¬ b = true) : b = false := by
  cases b
  · rfl
  · exact absurd rfl h

theorem season_dm_loop_single_eq (d : RegistryData) (g : Nat) (today : PyDate)
    (s : String) :
    VerifyCog.season_dm_loop d [g] today s =
      if today.month = SEASON_START_MONTH ∧ today.day = SEASON_START_DAY ∧
          VerifiedRegistry.was_dm_sent d g today.year = false then
        ([g], VerifiedRegistry.mark_dm_sent d g today.year s)
      else ([], d) := by
  unfold VerifyCog.season_dm_loop
  by_cases hmd : today.month = SEASON_START_MONTH ∧ today.day = SEASON_START_DAY
  · simp only [if_pos hmd, List.foldl_cons, List.foldl_nil]
    by_cases hf : VerifiedRegistry.was_dm_sent d g today.year = true
    · simp [VerifyCog.dm_all_members_for_season, hf]
    · have hff := bool_eq_false_of_ne_true hf
      simp [VerifyCog.dm_all_members_for_season, hff, hmd.1, hmd.2]
  · rw [if_neg hmd, if_neg (fun hc => hmd ⟨hc.1, hc.2.1⟩)]

theorem season_enforce_loop_single_eq (d : RegistryData) (g : Nat) (today : PyDate)
    (ml : Nat → Nat → MemberLookup) (fi : String → Option PyDateTime) (s : String) :
    VerifyCog.season_enforce_loop d [g] today ml fi s =
      if today.month = REVERIFY_DEADLINE_MONTH ∧ today.day = REVERIFY_DEADLINE_DAY ∧
          VerifiedRegistry.was_enforced d g today.year = false then
        ([g], (VerifyCog.enforce_reverify_for_season d g today.year (ml g) fi s).2.2)
      else ([], d) := by
  unfold VerifyCog.season_enforce_loop
  by_cases hmd : today.month = REVERIFY_DEADLINE_MONTH ∧ today.day = REVERIFY_DEADLINE_DAY
  · simp only [if_pos hmd, List.foldl_cons, List.foldl_nil]
    by_cases hf : VerifiedRegistry.was_enforced d g today.year = true
    · simp [enforce_reverify_eq_done (ml g) fi s hf, hf]
    · have hff := bool_eq_false_of_ne_true hf
      simp [enforce_reverify_eq_run (ml g) fi s hff, hff, hmd.1, hmd.2]
  · rw [if_neg hmd, if_neg (fun hc => hmd ⟨hc.1, hc.2.1⟩)]

theorem catchup_step_eq (year : Nat) (ss dl : PyDateTime) (nowDate : PyDate)
    (ml : Nat → Nat → MemberLookup) (fi : String → Option PyDateTime) (s : String)
    (acc : List SeasonAction × RegistryData) (g : Nat) :
    VerifyCog.catchup_step year ss dl nowDate ml fi s acc g =
      if PyDate.leb ss.date nowDate && PyDate.ltb nowDate dl.date then
        (if VerifiedRegistry.was_dm_sent acc.2 g year then acc
         else (acc.1 ++ [SeasonAction.dm g year],
           VerifiedRegistry.mark_dm_sent acc.2 g year s))
      else if PyDate.leb dl.date nowDate then
        (if VerifiedRegistry.was_enforced acc.2 g year then acc
         else (acc.1 ++ [SeasonAction.enforceSweep g year
                 (VerifyCog.enforce_reverify_for_season acc.2 g year (ml g) fi s).2.1],
               (VerifyCog.enforce_reverify_for_season acc.2 g year (ml g) fi s).2.2))
      else acc := by
  simp only [VerifyCog.catchup_step]
  by_cases h1 : (PyDate.leb ss.date nowDate && PyDate.ltb nowDate dl.date) = true
  · have h2 : ¬ PyDate.leb dl.date nowDate = true := by
      intro hb
      have h1b := h1
      rw [Bool.and_eq_true] at h1b
      exact PyDate.ltb_leb_absurd h1b.2 hb
    simp only [if_pos h1, if_neg h2]
    by_cases hf : VerifiedRegistry.was_dm_sent acc.2 g year = true
    · simp [hf]
    · have hff := bool_eq_false_of_ne_true hf
      simp [VerifyCog.dm_all_members_for_season, hff]
  · simp only [if_neg h1]
    by_cases h2 : PyDate.leb dl.date nowDate = true
    · simp only [if_pos h2]
      by_cases hf : VerifiedRegistry.was_enforced acc.2 g year = true
      · simp [hf]
      · have hff := bool_eq_false_of_ne_true hf
        simp [enforce_reverify_eq_run (ml g) fi s hff, hff]
    · simp only [if_neg h2]

theorem dm_sent_at_mark_dm_sent_other_year (d : RegistryData) (g y : Nat) (t : String)
    (g2 y2 : Nat) (hy : y ≠ y2) :
    dm_sent_at (VerifiedRegistry.mark_dm_sent d g y t) g2 y2 = dm_sent_at d g2 y2 := by
  simp only [dm_sent_at, VerifiedRegistry.mark_dm_sent]
  by_cases hgg : g = g2
  · subst hgg
    rw [dictGet_dictSet, if_pos rfl]
    simp only [Option.getD_some]
    rw [dictGet_dictSet, if_neg hy]
  · rw [dictGet_dictSet, if_neg hgg]

theorem enforced_at_mark_enforced_other_year (d : RegistryData) (g y : Nat) (t : String)
    (g2 y2 : Nat) (hy : y ≠ y2) :
    enforced_at (VerifiedRegistry.mark_enforced d g y t) g2 y2 = enforced_at d g2 y2 := by
  simp only [enforced_at, VerifiedRegistry.mark_enforced]
  by_cases hgg : g = g2
  · subst hgg
    rw [dictGet_dictSet, if_pos rfl]
    simp only [Option.getD_some]
    rw [dictGet_dictSet, if_neg hy]
  · rw [dictGet_dictSet, if_neg hgg]

theorem dm_sent_at_mark_enforced (d : RegistryData) (g y : Nat) (t : String)
    (g2 y2 : Nat) :
    dm_sent_at (VerifiedRegistry.mark_enforced d g y t) g2 y2 = dm_sent_at d g2 y2 := by
  simp only [dm_sent_at, VerifiedRegistry.mark_enforced]
  by_cases hgg : g = g2
  · subst hgg
    rw [dictGet_dictSet, if_pos rfl]
    simp only [Option.getD_some]
    by_cases hy : y = y2
    · subst hy
      rw [dictGet_dictSet, if_pos rfl]
      simp
    · rw [dictGet_dictSet, if_neg hy]
  · rw [dictGet_dictSet, if_neg hgg]

theorem enforced_at_mark_dm_sent (d : RegistryData) (g y : Nat) (t : String)
    (g2 y2 : Nat) :
    enforced_at (VerifiedRegistry.mark_dm_sent d g y t) g2 y2 = enforced_at d g2 y2 := by
  simp only [enforced_at, VerifiedRegistry.mark_dm_sent]
  by_cases hgg : g = g2
  · subst hgg
    rw [dictGet_dictSet, if_pos rfl]
    simp only [Option.getD_some]
    by_cases hy : y = y2
    · subst hy
      rw [dictGet_dictSet, if_pos rfl]
      simp
    · rw [dictGet_dictSet, if_neg hy]
  · rw [dictGet_dictSet, if_neg hgg]

theorem dm_sent_at_update_wa_record (d : RegistryData) (g w : Nat)
    (patch : LinkRecord → LinkRecord) (g2 y2 : Nat) :
    dm_sent_at (VerifiedRegistry.update_wa_record d g w patch) g2 y2 =
      dm_sent_at d g2 y2 := by
  simp only [VerifiedRegistry.update_wa_record]
  cases hr : dictGet ((dictGet d.guilds g).getD GuildData.empty).wa_id_map w with
  | none => rfl
  | some r =>
    simp only [hr, dm_sent_at]
    by_cases hgg : g = g2
    · subst hgg
      rw [dictGet_dictSet, if_pos rfl]
      simp only [Option.getD_some]
    · rw [dictGet_dictSet, if_neg hgg]

theorem enforced_at_update_wa_record (d : RegistryData) (g w : Nat)
    (patch : LinkRecord → LinkRecord) (g2 y2 : Nat) :
    enforced_at (VerifiedRegistry.update_wa_record d g w patch) g2 y2 =
      enforced_at d g2 y2 := by
  simp only [VerifiedRegistry.update_wa_record]
  cases hr : dictGet ((dictGet d.guilds g).getD GuildData.empty).wa_id_map w with
  | none => rfl
  | some r =>
    simp only [hr, enforced_at]
    by_cases hgg : g = g2
    · subst hgg
      rw [dictGet_dictSet, if_pos rfl]
      simp only [Option.getD_some]
    · rw [dictGet_dictSet, if_neg hgg]

theorem season_obs_enforce_fold {β : Type} (obs : RegistryData → β)
    (hobs : ∀ dd gid w patch,
      obs (VerifiedRegistry.update_wa_record dd gid w patch) = obs dd)
    (gid y : Nat) (ss : PyDateTime) (ml : Nat → MemberLookup)
    (fi : String → Option PyDateTime) (now : String)
    (recs : List (Nat × LinkRecord)) :
    ∀ dd : RegistryData,
      obs (recs.foldl
          (fun dd p =>
            if demotes ss ml fi p.2 then
              VerifiedRegistry.update_wa_record dd gid p.2.wa_contact_id
                (demotion_patch y now)
            else dd)
          dd) = obs dd := by
  induction recs with
  | nil => intro dd; rfl
  | cons hd tl ih =>
    intro dd
    rw [List.foldl_cons]
    rw [ih]
    cases hdem : demotes ss ml fi hd.2
    · rw [if_neg (by simp [hdem])]
    · rw [if_pos (by simp [hdem]), hobs]

theorem dm_sent_at_enforce (d : RegistryData) (g y : Nat) (ml : Nat → MemberLookup)
    (fi : String → Option PyDateTime) (s : String) (g2 y2 : Nat) :
    dm_sent_at (VerifyCog.enforce_reverify_for_season d g y ml fi s).2.2 g2 y2 =
      dm_sent_at d g2 y2 := by
  cases hf : VerifiedRegistry.was_enforced d g y
  · rw [enforce_reverify_eq_run ml fi s hf]
    simp only
    rw [dm_sent_at_mark_enforced]
    rw [season_obs_enforce_fold (fun dd => dm_sent_at dd g2 y2)
      (fun dd gid w patch => dm_sent_at_update_wa_record dd gid w patch g2 y2)]
  · rw [enforce_reverify_eq_done ml fi s hf]

theorem enforced_at_enforce_other_year (d : RegistryData) (g y : Nat)
    (ml : Nat → MemberLookup) (fi : String → Option PyDateTime) (s : String)
    (g2 y2 : Nat) (hy : y ≠ y2) :
    enforced_at (VerifyCog.enforce_reverify_for_season d g y ml fi s).2.2 g2 y2 =
      enforced_at d g2 y2 := by
  cases hf : VerifiedRegistry.was_enforced d g y
  · rw [enforce_reverify_eq_run ml fi s hf]
    simp only
    rw [enforced_at_mark_enforced_other_year _ _ _ _ _ _ hy]
    rw [season_obs_enforce_fold (fun dd => enforced_at dd g2 y2)
      (fun dd gid w patch => enforced_at_update_wa_record dd gid w patch g2 y2)]
  · rw [enforce_reverify_eq_done ml fi s hf]

theorem catchup_step_dm_sent_other_year (year : Nat) (ss dl : PyDateTime)
    (nowDate : PyDate) (ml : Nat → Nat → MemberLookup) (fi : String → Option PyDateTime)
    (s : String) (g2 y2 : Nat) (hy : year ≠ y2) :
    ∀ (acc : List SeasonAction × RegistryData) (g : Nat),
      dm_sent_at (VerifyCog.catchup_step year ss dl nowDate ml fi s acc g).2 g2 y2 =
        dm_sent_at acc.2 g2 y2 := by
  intro acc g
  rw [catchup_step_eq]
  by_cases h1 : (PyDate.leb ss.date nowDate && PyDate.ltb nowDate dl.date) = true
  · simp only [if_pos h1]
    by_cases hf : VerifiedRegistry.was_dm_sent acc.2 g year = true
    · simp only [if_pos hf]
    · simp only [if_neg hf]
      exact dm_sent_at_mark_dm_sent_other_year _ _ _ _ _ _ hy
  · simp only [if_neg h1]
    by_cases h2 : PyDate.leb dl.date nowDate = true
    · simp only [if_pos h2]
      by_cases hf : VerifiedRegistry.was_enforced acc.2 g year = true
      · simp only [if_pos hf]
      · simp only [if_neg hf]
        exact dm_sent_at_enforce _ _ _ _ _ _ _ _
    · simp only [if_neg h2]

theorem catchup_step_enforced_other_year (year : Nat) (ss dl : PyDateTime)
    (nowDate : PyDate) (ml : Nat → Nat → MemberLookup) (fi : String → Option PyDateTime)
    (s : String) (g2 y2 : Nat) (hy : year ≠ y2) :
    ∀ (acc : List SeasonAction × RegistryData) (g : Nat),
      enforced_at (VerifyCog.catchup_step year ss dl nowDate ml fi s acc g).2 g2 y2 =
        enforced_at acc.2 g2 y2 := by
  intro acc g
  rw [catchup_step_eq]
  by_cases h1 : (PyDate.leb ss.date nowDate && PyDate.ltb nowDate dl.date) = true
  · simp only [if_pos h1]
    by_cases hf : VerifiedRegistry.was_dm_sent acc.2 g year = true
    · simp only [if_pos hf]
    · simp only [if_neg hf]
      exact enforced_at_mark_dm_sent _ _ _ _ _ _
  · simp only [if_neg h1]
    by_cases h2 : PyDate.leb dl.date nowDate = true
    · simp only [if_pos h2]
      by_cases hf : VerifiedRegistry.was_enforced acc.2 g year = true
      · simp only [if_pos hf]
      · simp only [if_neg hf]
        exact enforced_at_enforce_other_year _ _ _ _ _ _ _ _ hy
    · simp only [if_neg h2]

theorem catchup_step_actions_shape (year : Nat) (ss dl : PyDateTime)
    (nowDate : PyDate) (ml : Nat → Nat → MemberLookup) (fi : String → Option PyDateTime)
    (s : String) :
    ∀ (acc : List SeasonAction × RegistryData) (g : Nat),
      ∃ tail, (VerifyCog.catchup_step year ss dl nowDate ml fi s acc g).1 =
          acc.1 ++ tail ∧
        ∀ act ∈ tail, (∃ g2, act = SeasonAction.dm g2 year) ∨
          ∃ g2 dem, act = SeasonAction.enforceSweep g2 year dem := by
  intro acc g
  rw [catchup_step_eq]
  by_cases h1 : (PyDate.leb ss.date nowDate && PyDate.ltb nowDate dl.date) = true
  · simp only [if_pos h1]
    by_cases hf : VerifiedRegistry.was_dm_sent acc.2 g year = true
    · simp only [if_pos hf]
      exact ⟨[], by simp, by simp⟩
    · simp only [if_neg hf]
      exact ⟨[SeasonAction.dm g year], rfl, by
        intro act hact
        simp only [List.mem_singleton] at hact
        exact Or.inl ⟨g, hact⟩⟩
  · simp only [if_neg h1]
    by_cases h2 : PyDate.leb dl.date nowDate = true
    · simp only [if_pos h2]
      by_cases hf : VerifiedRegistry.was_enforced acc.2 g year = true
      · simp only [if_pos hf]
        exact ⟨[], by simp, by simp⟩
      · simp only [if_neg hf]
        refine ⟨[SeasonAction.enforceSweep g year
          (VerifyCog.enforce_reverify_for_season acc.2 g year (ml g) fi s).2.1], rfl, ?_⟩
        intro act hact
        simp only [List.mem_singleton] at hact
        exact Or.inr ⟨g, _, hact⟩
    · simp only [if_neg h2]
      exact ⟨[], by simp, by simp⟩

theorem foldl_actions_shape {P : SeasonAction → Prop}
    {F : (List SeasonAction × RegistryData) → Nat → List SeasonAction × RegistryData}
    (hF : ∀ acc g, ∃ tail, (F acc g).1 = acc.1 ++ tail ∧ ∀ act ∈ tail, P act) :
    ∀ (gs : List Nat) (acc : List SeasonAction × RegistryData),
      ∀ act ∈ (gs.foldl F acc).1, act ∈ acc.1 ∨ P act := by
  intro gs
  induction gs with
  | nil => intro acc act hact; exact Or.inl hact
  | cons g gs ih =>
    intro acc act hact
    rw [List.foldl_cons] at hact
    rcases ih (F acc g) act hact with hin | hp
    · obtain ⟨tail, htl, hP⟩ := hF acc g
      rw [htl] at hin
      rcases List.mem_append.mp hin with h | h
      · exact Or.inl h
      · exact Or.inr (hP act h)
    · exact Or.inr hp

theorem foldl_state_obs {β : Type}
    {F : (List SeasonAction × RegistryData) → Nat → List SeasonAction × RegistryData}
    {obs : RegistryData → β}
    (hF : ∀ acc g, obs (F acc g).2 = obs acc.2) :
    ∀ (gs : List Nat) (acc : List SeasonAction × RegistryData),
      obs ((gs.foldl F acc).2) = obs acc.2 := by
  intro gs
  induction gs with
  | nil => intro acc; rfl
  | cons g gs ih =>
    intro acc
    rw [List.foldl_cons, ih, hF]

theorem season_catchup_single_eq (d : RegistryData) (g : Nat) (now : PyDateTime)
    (ml : Nat → Nat → MemberLookup) (fi : String → Option PyDateTime) (s : String) :
    VerifyCog.season_catchup d [g] now ml fi s =
      if PyDate.leb (season_start_utc now.year).date now.date &&
          PyDate.ltb now.date (reverify_deadline_utc now.year).date then
        (if VerifiedRegistry.was_dm_sent d g now.year then ([], d)
         else ([SeasonAction.dm g now.year],
           VerifiedRegistry.mark_dm_sent d g now.year s))
      else if PyDate.leb (reverify_deadline_utc now.year).date now.date then
        (if VerifiedRegistry.was_enforced d g now.year then ([], d)
         else ([SeasonAction.enforceSweep g now.year
                 (VerifyCog.enforce_reverify_for_season d g now.year (ml g) fi s).2.1],
               (VerifyCog.enforce_reverify_for_season d g now.year (ml g) fi s).2.2))
      else ([], d) := by
  unfold VerifyCog.season_catchup
  simp only [List.foldl_cons, List.foldl_nil]
  rw [catchup_step_eq]
  simp

/-- Counterexample to C6: on April 3, 2025 — inside the announcement window
`[Apr 1, Apr 14)` — with the DM flag unset, the claim requires the daily tick
to run the announcement; the `season_dm_loop` tick instead does nothing,
because it acts only when today is exactly April 1. -/
theorem season_dm_loop_window_tick_cex :
    PyDate.leb (season_start_utc 2025).date ⟨2025, 4, 3⟩ = true ∧
    PyDate.ltb ⟨2025, 4, 3⟩ (reverify_deadline_utc 2025).date = true ∧
    VerifiedRegistry.was_dm_sent RegistryData.empty 1 2025 = false ∧
    VerifyCog.season_dm_loop RegistryData.empty [1] ⟨2025, 4, 3⟩ "2025-04-03T16:00:00Z" =
      ([], RegistryData.empty) := by
  refine ⟨by decide, by decide, rfl, ?_⟩
  rw [season_dm_loop_single_eq]
  rw [if_neg (fun hc => by cases hc.2.1)]

/-- C6 (amended): the window-based conditions of the claim hold exactly for
the catch-up check — announcement when `seasonStart.date ≤ today <
deadline.date` with the DM flag unset, enforcement when `today ≥
deadline.date` with the enforced flag unset, nothing otherwise — while each
daily tick acts only when today is *exactly* the season-start date (April 1,
for the announcement) or *exactly* the deadline date (April 14, for
enforcement), with the same flag guards; each action marks its flag. -/
theorem season_ticks_exact_date_catchup_windowed (d : RegistryData) (g : Nat)
    (today : PyDate) (now : PyDateTime) (ml : Nat → Nat → MemberLookup)
    (fi : String → Option PyDateTime) (s : String) :
    VerifyCog.season_dm_loop d [g] today s =
        (if today.month = SEASON_START_MONTH ∧ today.day = SEASON_START_DAY ∧
            VerifiedRegistry.was_dm_sent d g today.year = false then
          ([g], VerifiedRegistry.mark_dm_sent d g today.year s)
        else ([], d)) ∧
      VerifyCog.season_enforce_loop d [g] today ml fi s =
        (if today.month = REVERIFY_DEADLINE_MONTH ∧ today.day = REVERIFY_DEADLINE_DAY ∧
            VerifiedRegistry.was_enforced d g today.year = false then
          ([g], (VerifyCog.enforce_reverify_for_season d g today.year (ml g) fi s).2.2)
        else ([], d)) ∧
      VerifyCog.season_catchup d [g] now ml fi s =
        (if PyDate.leb (season_start_utc now.year).date now.date &&
            PyDate.ltb now.date (reverify_deadline_utc now.year).date then
          (if VerifiedRegistry.was_dm_sent d g now.year then ([], d)
           else ([SeasonAction.dm g now.year],
             VerifiedRegistry.mark_dm_sent d g now.year s))
        else if PyDate.leb (reverify_deadline_utc now.year).date now.date then
          (if VerifiedRegistry.was_enforced d g now.year then ([], d)
           else ([SeasonAction.enforceSweep g now.year
                   (VerifyCog.enforce_reverify_for_season d g now.year (ml g) fi s).2.1],
                 (VerifyCog.enforce_reverify_for_season d g now.year (ml g) fi s).2.2))
        else ([], d)) :=
  ⟨season_dm_loop_single_eq d g today s,
    season_enforce_loop_single_eq d g today ml fi s,
    season_catchup_single_eq d g now ml fi s⟩

/-- Counterexample to C5: the 2025 season's enforcement window opened on
April 14, 2025 and was never enforced, yet a catch-up run on January 5, 2026
performs no action at all and leaves the registry untouched — the catch-up
only ever considers the current calendar year (`year = now.year`). -/
theorem season_catchup_later_year_cex :
    PyDate.leb (reverify_deadline_utc 2025).date ⟨2026, 1, 5⟩ = true ∧
    VerifiedRegistry.was_enforced RegistryData.empty 1 2025 = false ∧
    VerifiedRegistry.was_dm_sent RegistryData.empty 1 2025 = false ∧
    VerifyCog.season_catchup RegistryData.empty [1] ⟨2026, 1, 5, 12, 0, 0⟩
        (fun _ _ => MemberLookup.cached) (fun _ => none) "2026-01-05T12:00:00Z" =
      ([], RegistryData.empty) := by
  refine ⟨by decide, rfl, rfl, ?_⟩
  rw [season_catchup_single_eq]
  rw [if_neg (by decide), if_neg (by decide)]

/-- C5 (amended): the startup catch-up re-runs the date-based checks only for
the season of the current calendar year (`year = now.year`): every action it
performs is for that year and the stored flags of every other season year are
untouched; within the same calendar year a missed announcement (window open,
DM flag unset) is still announced and the flag marked, and a missed
enforcement (deadline passed, flag unset) is still enforced and the flag
marked.  A season whose year has already rolled over is never announced or
enforced by catch-up. -/
theorem season_catchup_current_year_only (d : RegistryData) (guilds : List Nat)
    (now : PyDateTime) (ml : Nat → Nat → MemberLookup) (fi : String → Option PyDateTime)
    (s : String) (g2 y2 : Nat) (hy : now.year ≠ y2) :
    (∀ act ∈ (VerifyCog.season_catchup d guilds now ml fi s).1,
        (∃ g, act = SeasonAction.dm g now.year) ∨
          ∃ g dem, act = SeasonAction.enforceSweep g now.year dem) ∧
      dm_sent_at (VerifyCog.season_catchup d guilds now ml fi s).2 g2 y2 =
        dm_sent_at d g2 y2 ∧
      enforced_at (VerifyCog.season_catchup d guilds now ml fi s).2 g2 y2 =
        enforced_at d g2 y2 ∧
      (∀ g d0 (t : PyDateTime),
        (PyDate.leb (season_start_utc t.year).date t.date &&
          PyDate.ltb t.date (reverify_deadline_utc t.year).date) = true →
        VerifiedRegistry.was_dm_sent d0 g t.year = false →
        SeasonAction.dm g t.year ∈ (VerifyCog.season_catchup d0 [g] t ml fi s).1 ∧
          (VerifyCog.season_catchup d0 [g] t ml fi s).2 =
            VerifiedRegistry.mark_dm_sent d0 g t.year s ∧
          (s ≠ "" →
            VerifiedRegistry.was_dm_sent (VerifyCog.season_catchup d0 [g] t ml fi s).2
              g t.year = true)) ∧
      (∀ g d0 (t : PyDateTime),
        PyDate.leb (reverify_deadline_utc t.year).date t.date = true →
        VerifiedRegistry.was_enforced d0 g t.year = false →
        (∃ dem, SeasonAction.enforceSweep g t.year dem ∈
            (VerifyCog.season_catchup d0 [g] t ml fi s).1) ∧
          (VerifyCog.season_catchup d0 [g] t ml fi s).2 =
            (VerifyCog.enforce_reverify_for_season d0 g t.year (ml g) fi s).2.2 ∧
          (s ≠ "" →
            VerifiedRegistry.was_enforced (VerifyCog.season_catchup d0 [g] t ml fi s).2
              g t.year = true)) := by
  refine ⟨?_, ?_, ?_, ?_, ?_⟩
  · intro act hact
    have h := foldl_actions_shape
      (catchup_step_actions_shape now.year (season_start_utc now.year)
        (reverify_deadline_utc now.year) now.date ml fi s)
      guilds ([], d) act hact
    rcases h with h | h
    · simp at h
    · exact h
  · exact @foldl_state_obs (Option String)
      (VerifyCog.catchup_step now.year (season_start_utc now.year)
        (reverify_deadline_utc now.year) now.date ml fi s)
      (fun dd => dm_sent_at dd g2 y2)
      (catchup_step_dm_sent_other_year now.year (season_start_utc now.year)
        (reverify_deadline_utc now.year) now.date ml fi s g2 y2 hy)
      guilds ([], d)
  · exact @foldl_state_obs (Option String)
      (VerifyCog.catchup_step now.year (season_start_utc now.year)
        (reverify_deadline_utc now.year) now.date ml fi s)
      (fun dd => enforced_at dd g2 y2)
      (catchup_step_enforced_other_year now.year (season_start_utc now.year)
        (reverify_deadline_utc now.year) now.date ml fi s g2 y2 hy)
      guilds ([], d)
  · intro g d0 t hw hflag
    rw [season_catchup_single_eq]
    rw [if_pos hw, if_neg (by simp [hflag])]
    refine ⟨by simp, rfl, ?_⟩
    intro hs
    rw [was_dm_sent_eq_truthy, dm_sent_at_mark_dm_sent]
    simp [pyTruthy, hs]
  · intro g d0 t hdl henf
    have hw1 : (PyDate.leb (season_start_utc t.year).date t.date &&
        PyDate.ltb t.date (reverify_deadline_utc t.year).date) = false := by
      cases hb : PyDate.ltb t.date (reverify_deadline_utc t.year).date
      · simp
      · exact (PyDate.ltb_leb_absurd hb hdl).elim
    rw [season_catchup_single_eq]
    rw [if_neg (by simp [hw1]), if_pos hdl, if_neg (by simp [henf])]
    refine ⟨⟨(VerifyCog.enforce_reverify_for_season d0 g t.year (ml g) fi s).2.1,
      by simp⟩, rfl, ?_⟩
    intro hs
    rw [enforce_reverify_eq_run (ml g) fi s henf]
    simp only
    rw [was_enforced_eq_truthy, enforced_at_mark_enforced]
    simp [pyTruthy, hs]

/-- Witness for the amended C5: a January 2026 catch-up run leaves the 2025
flags untouched, while same-year catch-up runs on April 5, 2025 (missed
announcement) and April 20, 2025 (missed enforcement) perform the
announcement and the enforcement sweep and mark their flags. -/
theorem season_catchup_current_year_only_witness :
    ((⟨2026, 1, 5, 12, 0, 0⟩ : PyDateTime).year ≠ 2025) ∧
    dm_sent_at (VerifyCog.season_catchup RegistryData.empty [1] ⟨2026, 1, 5, 12, 0, 0⟩
        (fun _ _ => MemberLookup.cached) (fun _ => none) "2026-01-05T12:00:00Z").2 1 2025 =
      dm_sent_at RegistryData.empty 1 2025 ∧
    enforced_at (VerifyCog.season_catchup RegistryData.empty [1] ⟨2026, 1, 5, 12, 0, 0⟩
        (fun _ _ => MemberLookup.cached) (fun _ => none) "2026-01-05T12:00:00Z").2 1 2025 =
      enforced_at RegistryData.empty 1 2025 ∧
    (SeasonAction.dm 1 2025 ∈ (VerifyCog.season_catchup RegistryData.empty [1]
        ⟨2025, 4, 5, 16, 0, 0⟩ (fun _ _ => MemberLookup.cached) (fun _ => none)
        "2026-01-05T12:00:00Z").1 ∧
      (VerifyCog.season_catchup RegistryData.empty [1] ⟨2025, 4, 5, 16, 0, 0⟩
          (fun _ _ => MemberLookup.cached) (fun _ => none) "2026-01-05T12:00:00Z").2 =
        VerifiedRegistry.mark_dm_sent RegistryData.empty 1 2025 "2026-01-05T12:00:00Z" ∧
      VerifiedRegistry.was_dm_sent (VerifyCog.season_catchup RegistryData.empty [1]
          ⟨2025, 4, 5, 16, 0, 0⟩ (fun _ _ => MemberLookup.cached) (fun _ => none)
          "2026-01-05T12:00:00Z").2 1 2025 = true) ∧
    ((∃ dem, SeasonAction.enforceSweep 1 2025 dem ∈ (VerifyCog.season_catchup
        RegistryData.empty [1] ⟨2025, 4, 20, 7, 5, 0⟩ (fun _ _ => MemberLookup.cached)
        (fun _ => none) "2026-01-05T12:00:00Z").1) ∧
      (VerifyCog.season_catchup RegistryData.empty [1] ⟨2025, 4, 20, 7, 5, 0⟩
          (fun _ _ => MemberLookup.cached) (fun _ => none) "2026-01-05T12:00:00Z").2 =
        (VerifyCog.enforce_reverify_for_season RegistryData.empty 1 2025
          (fun _ => MemberLookup.cached) (fun _ => none) "2026-01-05T12:00:00Z").2.2 ∧
      VerifiedRegistry.was_enforced (VerifyCog.season_catchup RegistryData.empty [1]
          ⟨2025, 4, 20, 7, 5, 0⟩ (fun _ _ => MemberLookup.cached) (fun _ => none)
          "2026-01-05T12:00:00Z").2 1 2025 = true) := by
  have H := season_catchup_current_year_only RegistryData.empty [1] ⟨2026, 1, 5, 12, 0, 0⟩
    (fun _ _ => MemberLookup.cached) (fun _ => none) "2026-01-05T12:00:00Z" 1 2025
    (by decide)
  obtain ⟨hA, hstA, hflA⟩ := H.2.2.2.1 1 RegistryData.empty ⟨2025, 4, 5, 16, 0, 0⟩
    (by decide) rfl
  obtain ⟨hB, hstB, hflB⟩ := H.2.2.2.2 1 RegistryData.empty ⟨2025, 4, 20, 7, 5, 0⟩
    (by decide) rfl
  exact ⟨by decide, H.2.1, H.2.2.1, ⟨hA, hstA, hflA (by decide)⟩,
    ⟨hB, hstB, hflB (by decide)⟩⟩
